import Mathlib

/-!
Verification of the oagi-python action-translation pipeline.

The Python sources under `src/oagi` are shallowly embedded: pure functions
become Lean functions, float arithmetic is modelled exactly over `ℚ`,
`raise`/`except` control flow becomes `Except`, and the two pieces of mutable
converter state (cursor position, capslock flag) are threaded explicitly.
Python standard-library primitives (`str.strip`, `str.split`, `int()`,
`float()`, `round()`, `repr()`, `json.loads`) are re-implemented over
`List Char` / `ℚ` so that every definition is executable by the kernel.
-/

namespace Oagi

/-! ## Python string primitives -/

/-- Characters treated as whitespace by Python's `str.strip()` (ASCII part). -/
def isPyWs (c : Char) : Bool :=
  c = ' ' || c = '\t' || c = '\n' || c = '\r' || c = '\x0b' || c = '\x0c'

/-- Python `s.strip()` on a character list. -/
def stripList (l : List Char) : List Char :=
  ((l.dropWhile isPyWs).reverse.dropWhile isPyWs).reverse

/-- Python `s.strip()`. -/
def pyStrip (s : String) : String := (stripList s.toList).asString

/-- Python `s.strip(chars)` : remove any of `cs` from both ends. -/
def pyStripChars (cs : List Char) (s : String) : String :=
  (((s.toList.dropWhile (cs.contains ·)).reverse.dropWhile (cs.contains ·)).reverse).asString

/-- Python `s.lower()` (ASCII case folding, which covers every key name used). -/
def pyLower (s : String) : String := (s.toList.map Char.toLower).asString

/-- Python `s.upper()` (ASCII case folding). -/
def pyUpper (s : String) : String := (s.toList.map Char.toUpper).asString

/-- Split a character list on a separator character; Python `s.split(sep)`
for a one-character separator (empty input yields `[""]`, like Python). -/
def splitOnChar (sep : Char) : List Char → List (List Char)
  | [] => [[]]
  | c :: cs =>
    match splitOnChar sep cs with
    | [] => [[c]]
    | h :: t => if c = sep then [] :: h :: t else (c :: h) :: t

/-- Python `s.split(sep)` for a one-character separator. -/
def pySplit (s : String) (sep : Char) : List String :=
  (splitOnChar sep s.toList).map List.asString

/-- Python `s.rsplit(sep, 1)` for a one-character separator: if `sep` occurs,
split at its last occurrence into two pieces, else return the whole string. -/
def pyRsplitOnce (s : String) (sep : Char) : List String :=
  match pySplit s sep with
  | [] => [s]
  | [x] => [x]
  | parts =>
    let last := parts.getLast!
    let front := parts.dropLast
    [joinSep front sep, last]
where
  /-- Rejoin pieces with the separator between them. -/
  joinSep : List String → Char → String
  | [], _ => ""
  | [x], _ => x
  | x :: xs, c => x ++ c.toString ++ joinSep xs c

/-- Does `sub` occur as a contiguous run inside `l`?  Python `sub in s`. -/
def containsSubList (l sub : List Char) : Bool :=
  match l with
  | [] => sub.isEmpty
  | _ :: tl => sub.isPrefixOf l || containsSubList tl sub

/-- Python substring containment `sub in s`. -/
def containsSub (s sub : String) : Bool := containsSubList s.toList sub.toList

/-- Index of the first occurrence of `sub` in `l`, if any. -/
def findSubList (l sub : List Char) (i : Nat) : Option Nat :=
  match l with
  | [] => if sub.isEmpty then some i else none
  | _ :: tl => if sub.isPrefixOf l then some i else findSubList tl sub (i + 1)

/-! ## Python numeric primitives -/

/-- Decimal value of a digit run; `none` if empty or a non-digit appears. -/
def digitsVal : List Char → Option Nat
  | [] => none
  | l => go l 0
where
  go : List Char → Nat → Option Nat
  | [], acc => some acc
  | c :: cs, acc => if c.isDigit then go cs (acc * 10 + (c.toNat - 48)) else none

/-- Python `int(s)` on a string: strip, optional sign, decimal digits. -/
def pyParseInt (s : String) : Option Int :=
  let l := stripList s.toList
  match l with
  | '+' :: rest => (digitsVal rest).map (Int.ofNat ·)
  | '-' :: rest => (digitsVal rest).map (fun n => -(Int.ofNat n))
  | rest => (digitsVal rest).map (Int.ofNat ·)

/-- Parse an unsigned decimal with optional fractional part into `ℚ`
(`"12"`, `"12."`, `".5"`, `"12.5"`).  Helper for `pyParseFloat`. -/
def parseDecimalCore (l : List Char) : Option ℚ :=
  let intPart := l.takeWhile Char.isDigit
  let rest := l.dropWhile Char.isDigit
  match rest with
  | [] => (digitsVal intPart).map (fun n => (n : ℚ))
  | '.' :: fracs =>
    if fracs.all Char.isDigit && (intPart ≠ [] || fracs ≠ []) then
      let ip : ℚ := ((digitsVal intPart).getD 0 : Nat)
      let fp : ℚ := ((digitsVal fracs).getD 0 : Nat)
      some (ip + fp / ((10 : ℚ) ^ fracs.length))
    else none
  | _ => none

/-- Python `float(s)`: strip, optional sign, decimal with optional fractional
part and optional decimal exponent. -/
def pyParseFloat (s : String) : Option ℚ :=
  let l := stripList s.toList
  let (sign, body) : ℚ × List Char :=
    match l with
    | '+' :: rest => (1, rest)
    | '-' :: rest => (-1, rest)
    | rest => (1, rest)
  let mantissa := body.takeWhile (fun c => c.isDigit || c = '.')
  let expPart := body.dropWhile (fun c => c.isDigit || c = '.')
  match parseDecimalCore mantissa with
  | none => none
  | some m =>
    match expPart with
    | [] => some (sign * m)
    | e :: rest =>
      if e = 'e' || e = 'E' then
        match rest with
        | '+' :: ds => (digitsVal ds).map (fun n => sign * m * (10 : ℚ) ^ n)
        | '-' :: ds => (digitsVal ds).map (fun n => sign * m / (10 : ℚ) ^ n)
        | ds => (digitsVal ds).map (fun n => sign * m * (10 : ℚ) ^ n)
      else none

/-- Python `round()` : round half to even, on exact rationals. -/
def pyRound (q : ℚ) : Int :=
  let f : Int := q.floor
  let r : ℚ := q - (f : ℚ)
  if r < 1 / 2 then f
  else if 1 / 2 < r then f + 1
  else if f % 2 = 0 then f else f + 1

/-- Decimal digit string of a natural number. -/
def natDigits (n : Nat) : String := toString n

/-- Smallest `k ≤ fuel` with `den ∣ 10 ^ k`, if any. -/
def decExpFuel (den : Nat) : Nat → Option Nat
  | 0 => if den ∣ 1 then some 0 else none
  | k + 1 =>
    match decExpFuel den k with
    | some j => some j
    | none => if den ∣ 10 ^ (k + 1) then some (k + 1) else none

/-- Python `str(f)` for a float, modelled on exact decimals: integers render
with a trailing `.0`, terminating decimals render with no trailing zeros.
(Non-terminating decimals cannot arise from the parsed inputs reaching this
formatter; they fall back to a fraction rendering.) -/
def pyFloatStr (q : ℚ) : String :=
  let sign := if q < 0 then "-" else ""
  let n := q.num.natAbs
  let den := q.den
  if den = 1 then sign ++ natDigits n ++ ".0"
  else
    match decExpFuel den 30 with
    | some k =>
      let m := n * (10 ^ k / den)
      let ip := m / 10 ^ k
      let fp := m % 10 ^ k
      let fpStr := natDigits fp
      let pad := String.mk (List.replicate (k - fpStr.length) '0')
      sign ++ natDigits ip ++ "." ++ pad ++ fpStr
    | none => sign ++ natDigits n ++ "/" ++ natDigits den

/-- The single-quote character, written via its code point. -/
def squote : Char := Char.ofNat 39

/-- Python `repr(s)` for a string: CPython picks single quotes unless the
text contains a single quote but no double quote; backslashes, the chosen
quote, and the common control characters are escaped. -/
def pyRepr (s : String) : String :=
  let l := s.toList
  let quote : Char :=
    if l.contains squote && !l.contains '"' then '"' else squote
  let escape (c : Char) : String :=
    if c = '\\' then "\\\\"
    else if c = quote then "\\" ++ quote.toString
    else if c = '\n' then "\\n"
    else if c = '\r' then "\\r"
    else if c = '\t' then "\\t"
    else c.toString
  quote.toString ++ String.join (l.map escape) ++ quote.toString

/-! ## CoordinateScaler (`src/oagi/handler/utils.py`) -/

/-- Embedding of `handler.utils.CoordinateScaler`: fixed source extents,
mutable target extents and origin offset, derived scale factors. -/
structure CoordinateScaler where
  source_width : Int
  source_height : Int
  target_width : Int
  target_height : Int
  origin_x : Int
  origin_y : Int
  scale_x : ℚ
  scale_y : ℚ

/-- Constructor of `CoordinateScaler`: scale factors are `target / source`. -/
def CoordinateScaler.make (sw sh tw th ox oy : Int) : CoordinateScaler :=
  { source_width := sw
    source_height := sh
    target_width := tw
    target_height := th
    origin_x := ox
    origin_y := oy
    scale_x := (tw : ℚ) / (sw : ℚ)
    scale_y := (th : ℚ) / (sh : ℚ) }

/-- The arithmetic part of `CoordinateScaler.scale` (everything after the
strict range check, which in the source runs first and cannot raise). -/
def CoordinateScaler.scaleCore (sc : CoordinateScaler) (x y : ℚ)
    (clamp prevent_failsafe : Bool) : Int × Int :=
  let scaled_x0 := pyRound (x * sc.scale_x)
  let scaled_y0 := pyRound (y * sc.scale_y)
  let scaled_x1 := if clamp then max 0 (min scaled_x0 (sc.target_width - 1)) else scaled_x0
  let scaled_y1 := if clamp then max 0 (min scaled_y0 (sc.target_height - 1)) else scaled_y0
  let scaled_x2 :=
    if prevent_failsafe then
      if scaled_x1 < 1 then 1
      else if scaled_x1 > sc.target_width - 2 then sc.target_width - 2
      else scaled_x1
    else scaled_x1
  let scaled_y2 :=
    if prevent_failsafe then
      if scaled_y1 < 1 then 1
      else if scaled_y1 > sc.target_height - 2 then sc.target_height - 2
      else scaled_y1
    else scaled_y1
  (scaled_x2 + sc.origin_x, scaled_y2 + sc.origin_y)

/-- Embedding of `CoordinateScaler.scale(x, y, clamp=, prevent_failsafe=,
strict=)`.  The strict range check runs before any scaling; a strict
violation raises `ValueError` (modelled as `.error`). -/
def CoordinateScaler.scale (sc : CoordinateScaler) (x y : ℚ)
    (clamp prevent_failsafe strict : Bool) : Except String (Int × Int) :=
  if strict && (x < 0 || x > (sc.source_width : ℚ)) then
    .error ("x coordinate out of valid range [0, " ++ toString sc.source_width ++ "]")
  else if strict && (y < 0 || y > (sc.source_height : ℚ)) then
    .error ("y coordinate out of valid range [0, " ++ toString sc.source_height ++ "]")
  else
    .ok (sc.scaleCore x y clamp prevent_failsafe)

/-! ## Key normalization (`src/oagi/handler/utils.py`) -/

/-- Embedding of `handler.utils.KEY_MAP`: the minimal alias table used by the
shared `normalize_key`. -/
def KEY_MAP : List (String × String) :=
  [("caps_lock", "capslock"), ("caps", "capslock"),
   ("page_up", "pgup"), ("pageup", "pgup"),
   ("page_down", "pgdn"), ("pagedown", "pgdn")]

/-- First-match lookup in an association list (Python `dict.get`). -/
def assocLookup (m : List (String × String)) (k : String) : Option String :=
  match m with
  | [] => none
  | (k', v) :: rest => if k = k' then some v else assocLookup rest k

/-- Embedding of `handler.utils.PYAUTOGUI_VALID_KEYS`. -/
def PYAUTOGUI_VALID_KEYS : List String :=
  ["a", "b", "c", "d", "e", "f", "g", "h", "i", "j", "k", "l", "m",
   "n", "o", "p", "q", "r", "s", "t", "u", "v", "w", "x", "y", "z",
   "0", "1", "2", "3", "4", "5", "6", "7", "8", "9",
   "f1", "f2", "f3", "f4", "f5", "f6", "f7", "f8", "f9", "f10", "f11", "f12",
   "f13", "f14", "f15", "f16", "f17", "f18", "f19", "f20", "f21", "f22", "f23", "f24",
   "up", "down", "left", "right", "home", "end", "pageup", "pagedown", "pgup", "pgdn",
   "backspace", "delete", "del", "insert", "enter", "return", "tab", "space",
   "shift", "shiftleft", "shiftright", "ctrl", "ctrlleft", "ctrlright",
   "alt", "altleft", "altright", "option", "optionleft", "optionright",
   "command", "win", "winleft", "winright", "fn",
   "capslock", "numlock", "scrolllock",
   "esc", "escape", "pause", "printscreen", "prtsc", "prtscr", "prntscrn",
   "print", "apps", "clear", "sleep",
   "!", "@", "#", "$", "%", "^", "&", "*", "(", ")", "-", "_", "=", "+",
   "[", "]", "\x7b", "\x7d", "\\", "|", ";", ":", "\x27", "\"", ",", ".",
   "<", ">", "/", "?", "`", "~",
   "num0", "num1", "num2", "num3", "num4", "num5", "num6", "num7", "num8", "num9",
   "divide", "multiply", "subtract", "add", "decimal",
   "volumeup", "volumedown", "volumemute", "playpause", "stop", "nexttrack", "prevtrack",
   "browserback", "browserforward", "browserrefresh", "browserstop",
   "browsersearch", "browserfavorites", "browserhome",
   "launchapp1", "launchapp2", "launchmail", "launchmediaselect"]

/-- Embedding of `handler.utils.normalize_key(key, macos_ctrl_to_cmd=)`;
`isDarwin` models `sys.platform == "darwin"` (every call site in scope uses
the default `macos_ctrl_to_cmd=False`, making the remap branch dead). -/
def normalize_key (key : String) (macos_ctrl_to_cmd isDarwin : Bool) : String :=
  let k := pyLower (pyStrip key)
  let normalized := (assocLookup KEY_MAP k).getD k
  if macos_ctrl_to_cmd && isDarwin && normalized = "ctrl" then "command" else normalized

/-- Join strings with a separator (Python `sep.join(xs)`). -/
def joinWith (sep : String) : List String → String
  | [] => ""
  | [x] => x
  | x :: xs => x ++ sep ++ joinWith sep xs

/-- One suggestion line of `handler.utils.validate_keys` for an invalid key. -/
def keySuggestion (k : String) : String :=
  if k = "ret" then "\x27" ++ k ++ "\x27 -> use \x27enter\x27 or \x27return\x27"
  else if ("num".isPrefixOf k) && k.length > 3 then
    "\x27" ++ k ++ "\x27 -> numpad keys use format \x27num0\x27-\x27num9\x27"
  else "\x27" ++ k ++ "\x27 is not a valid key name"

/-- Embedding of `handler.utils.validate_keys`: raises `ValueError` listing a
suggestion per invalid key.  (The trailing sample of valid keys depends on
Python's unspecified set iteration order and is elided.) -/
def validate_keys (keys : List String) : Except String Unit :=
  let invalid := keys.filter (fun k => k ≠ "" && !PYAUTOGUI_VALID_KEYS.contains k)
  if invalid.isEmpty then .ok ()
  else .error ("Invalid key name(s) in hotkey: " ++ joinWith ", " (invalid.map keySuggestion))

/-- Embedding of `handler.utils.parse_hotkey(hotkey_str, validate=)`. -/
def parse_hotkey (hotkey_str : String) (validate : Bool) : Except String (List String) :=
  let s := pyStripChars ['(', ')'] hotkey_str
  let keys :=
    if containsSub s "+" then (pySplit s '+').map (normalize_key · false false)
    else (pySplit s ',').map (normalize_key · false false)
  let keys := keys.filter (· ≠ "")
  if validate then
    match validate_keys keys with
    | .error e => .error e
    | .ok _ => .ok keys
  else .ok keys

/-! ## Key normalization of the pyautogui converter
(`src/oagi/converters/pyautogui_action_converter.py`) -/

/-- Embedding of `PyautoguiActionConvertor._normalize_key`, whose alias table
(`hotkey_variations_mapping` plus OS-specific mappings) is richer than the
shared `KEY_MAP`. -/
def pyconvNormalizeKey (key : String) : String :=
  let k := pyLower (pyStrip key)
  if k = "page_up" || k = "pageup" || k = "pgup" then "pageup"
  else if k = "page_down" || k = "pagedown" || k = "pgdn" then "pagedown"
  else if k = "print_screen" || k = "printscreen" || k = "prtsc" || k = "prtscr" then "printscreen"
  else if k = "num_lock" || k = "numlock" then "numlock"
  else if k = "scroll_lock" || k = "scrolllock" then "scrolllock"
  else if k = "caps_lock" || k = "caps" || k = "capslock" then "capslock"
  else if k = "windows" || k = "super" || k = "meta" then "win"
  else if k = "cmd" then "command"
  else if k = "control" then "ctrl"
  else if k = "mute" then "volumemute"
  else if k = "play" then "playpause"
  else k

/-- One suggestion line of `PyautoguiActionConvertor._validate_keys`. -/
def pyconvKeySuggestion (k : String) : String :=
  if k = "return" || k = "ret" then "\x27" ++ k ++ "\x27 → use \x27enter\x27 or \x27return\x27"
  else if k = "delete" || k = "del" then "\x27" ++ k ++ "\x27 → use \x27delete\x27 or \x27del\x27"
  else if k = "escape" || k = "esc" then "\x27" ++ k ++ "\x27 → use \x27escape\x27 or \x27esc\x27"
  else if ("num".isPrefixOf k) && k.length > 3 then
    "\x27" ++ k ++ "\x27 → numpad keys use format \x27num0\x27-\x27num9\x27"
  else "\x27" ++ k ++ "\x27 is not a valid key name"

/-- Embedding of `PyautoguiActionConvertor._validate_keys`. -/
def pyconvValidateKeys (keys : List String) : Except String Unit :=
  let invalid := keys.filter (fun k => k ≠ "" && !PYAUTOGUI_VALID_KEYS.contains k)
  if invalid.isEmpty then .ok ()
  else .error ("Invalid key name(s) in hotkey: " ++ joinWith ", " (invalid.map pyconvKeySuggestion))

/-- Embedding of `PyautoguiActionConvertor._parse_hotkey` (unlike the shared
`parse_hotkey`, it validates before filtering out empty tokens). -/
def pyconvParseHotkey (args_str : String) : Except String (List String) :=
  let s := pyStripChars ['(', ')'] args_str
  let keys :=
    if containsSub s "+" then (pySplit s '+').map pyconvNormalizeKey
    else (pySplit s ',').map pyconvNormalizeKey
  match pyconvValidateKeys keys with
  | .error e => .error e
  | .ok _ => .ok keys

/-! ## CapsLock state machine -/

/-- Modelled from the spec: `oagi.handler.capslock_manager.CapsLockManager` is
imported by the converters and handlers but its source file is not under
`src/`; this embedding follows spec §4.4 (and the behavior pinned by
`tests/test_pyautogui_action_handler.py::TestCapsLockManager`): a `mode`
string (`"session"` or `"system"`) and a `caps_enabled` flag. -/
structure CapsLockManager where
  mode : String
  caps_enabled : Bool

/-- Modelled from the spec: constructing a manager starts with caps disabled. -/
def CapsLockManager.make (mode : String) : CapsLockManager :=
  { mode := mode, caps_enabled := false }

/-- Modelled from the spec: `toggle()` flips state only in `session` mode and
is a no-op in `system` mode. -/
def CapsLockManager.toggle (m : CapsLockManager) : CapsLockManager :=
  if m.mode = "session" then { m with caps_enabled := !m.caps_enabled } else m

/-- Modelled from the spec: `reset()` forces the state back to disabled. -/
def CapsLockManager.reset (m : CapsLockManager) : CapsLockManager :=
  { m with caps_enabled := false }

/-- Modelled from the spec: `transform_text(text)` upper-cases iff mode is
`session` and caps is enabled, otherwise identity. -/
def CapsLockManager.transform_text (m : CapsLockManager) (text : String) : String :=
  if m.mode = "session" && m.caps_enabled then pyUpper text else text

/-- Modelled from the spec: `should_use_system_capslock()` (the spec's
`should_delegate_to_system`) reports whether a capslock keypress is forwarded
to the OS, i.e. whether the mode is `system`. -/
def CapsLockManager.should_use_system_capslock (m : CapsLockManager) : Bool :=
  m.mode = "system"

/-! ## Actions (`src/oagi/types/models/action.py`) -/

/-- Embedding of the `ActionType` string enum. -/
inductive ActionType
  | CLICK
  | LEFT_DOUBLE
  | LEFT_TRIPLE
  | RIGHT_SINGLE
  | DRAG
  | MOUSE_MOVE
  | LEFT_CLICK_DRAG
  | PRESS_CLICK
  | HOTKEY
  | TYPE
  | SCROLL
  | FINISH
  | FAIL
  | WAIT
  | CALL_USER
deriving DecidableEq

/-- The `.value` string of each `ActionType` member. -/
def ActionType.value : ActionType → String
  | .CLICK => "click"
  | .LEFT_DOUBLE => "left_double"
  | .LEFT_TRIPLE => "left_triple"
  | .RIGHT_SINGLE => "right_single"
  | .DRAG => "drag"
  | .MOUSE_MOVE => "mouse_move"
  | .LEFT_CLICK_DRAG => "left_click_drag"
  | .PRESS_CLICK => "press_click"
  | .HOTKEY => "hotkey"
  | .TYPE => "type"
  | .SCROLL => "scroll"
  | .FINISH => "finish"
  | .FAIL => "fail"
  | .WAIT => "wait"
  | .CALL_USER => "call_user"

/-- Python `ActionType(s)`: the member whose value is `s`, if any. -/
def actionTypeOfValue (s : String) : Option ActionType :=
  [ActionType.CLICK, .LEFT_DOUBLE, .LEFT_TRIPLE, .RIGHT_SINGLE, .DRAG,
   .MOUSE_MOVE, .LEFT_CLICK_DRAG, .PRESS_CLICK, .HOTKEY, .TYPE, .SCROLL,
   .FINISH, .FAIL, .WAIT, .CALL_USER].find? (fun t => t.value = s)

/-- Embedding of the pydantic `Action` model: `type`, `argument`, and an
optional repeat `count` (validated `ge=1`). -/
structure Action where
  type : ActionType
  argument : String
  count : Option Int
deriving DecidableEq

/-- Pydantic construction of `Action`: `count` carries a `ge=1` constraint,
so a count below 1 raises a `ValidationError` (modelled as `.error`). -/
def mkAction (t : ActionType) (arg : String) (count : Option Int) : Except String Action :=
  match count with
  | some c =>
    if c < 1 then .error "ValidationError: count must be greater than or equal to 1"
    else .ok { type := t, argument := arg, count := some c }
  | none => .ok { type := t, argument := arg, count := none }

/-- Is this a terminal (`finish`/`fail`) action? -/
def Action.isTerminal (a : Action) : Bool :=
  a.type = ActionType.FINISH || a.type = ActionType.FAIL

/-! ## Converter configuration (`src/oagi/converters/base.py`,
`src/oagi/handler/utils.py`) -/

/-- Embedding of `converters.base.ConverterConfig` (floats as exact `ℚ`). -/
structure ConverterConfig where
  sandbox_width : Int
  sandbox_height : Int
  drag_duration : ℚ
  scroll_amount : Int
  wait_duration : ℚ
  hotkey_interval : ℚ
  capslock_mode : String
  strict_coordinate_validation : Bool

/-- The default `ConverterConfig()`. -/
def defaultConverterConfig : ConverterConfig :=
  { sandbox_width := 1920
    sandbox_height := 1080
    drag_duration := 1 / 2
    scroll_amount := 2
    wait_duration := 1
    hotkey_interval := 1 / 10
    capslock_mode := "session"
    strict_coordinate_validation := false }

/-- Embedding of the fields of `handler.utils.PyautoguiConfig` that
`PyautoguiActionConvertor` reads (remaining fields are never consulted by the
converter and are omitted). -/
structure PyautoguiConfig where
  drag_duration : ℚ
  scroll_amount : Int
  wait_duration : ℚ
  hotkey_interval : ℚ
  capslock_mode : String
  sandbox_width : Int
  sandbox_height : Int

/-- The config `PyautoguiActionConvertor` builds by default:
`PyautoguiConfig(scroll_amount=2)`. -/
def defaultPyautoguiConfig : PyautoguiConfig :=
  { drag_duration := 1 / 2
    scroll_amount := 2
    wait_duration := 1
    hotkey_interval := 1 / 10
    capslock_mode := "session"
    sandbox_width := 1920
    sandbox_height := 1080 }

/-! ## Coordinate parsing helpers (`src/oagi/handler/utils.py`) -/

/-- Python truncation `int(f)` of a float: toward zero. -/
def ratTrunc (q : ℚ) : Int :=
  if 0 ≤ q then q.floor else -((-q).floor)

/-- Embedding of `handler.utils.parse_click_coords(argument, scaler,
prevent_failsafe=, strict=)`. -/
def parse_click_coords (argument : String) (sc : CoordinateScaler)
    (prevent_failsafe strict : Bool) : Except String (Int × Int) :=
  if containsSub (pyLower argument) " and " || containsSub (pyLower argument) " then " then
    .error ("Invalid click format: " ++ pyRepr argument ++
      ". Cannot combine multiple actions with \x27and\x27 or \x27then\x27.")
  else
    let parts := if argument = "" then [] else pySplit argument ','
    if parts.length < 2 then
      .error ("Invalid click coordinate format: " ++ pyRepr argument ++
        ". Expected \x27x, y\x27 (comma-separated numeric values)")
    else
      match pyParseFloat (pyStrip (parts.getD 0 "")), pyParseFloat (pyStrip (parts.getD 1 "")) with
      | some x, some y =>
        match sc.scale x y true prevent_failsafe strict with
        | .ok p => .ok p
        | .error e =>
          .error ("Failed to parse click coords " ++ pyRepr argument ++ ": " ++ e ++
            ". Coordinates must be comma-separated numeric values.")
      | _, _ =>
        .error ("Failed to parse click coords " ++ pyRepr argument ++
          ". Coordinates must be comma-separated numeric values.")

/-- Embedding of `handler.utils.parse_drag_coords`. -/
def parse_drag_coords (argument : String) (sc : CoordinateScaler)
    (prevent_failsafe strict : Bool) : Except String (Int × Int × Int × Int) :=
  if containsSub (pyLower argument) " and " || containsSub (pyLower argument) " then " then
    .error ("Invalid drag format: " ++ pyRepr argument ++
      ". Cannot combine multiple actions with \x27and\x27 or \x27then\x27.")
  else
    let parts := if argument = "" then [] else pySplit argument ','
    if parts.length ≠ 4 then
      .error ("Invalid drag coordinate format: " ++ pyRepr argument ++
        ". Expected \x27x1, y1, x2, y2\x27 (4 comma-separated numeric values)")
    else
      match pyParseFloat (pyStrip (parts.getD 0 "")), pyParseFloat (pyStrip (parts.getD 1 "")),
            pyParseFloat (pyStrip (parts.getD 2 "")), pyParseFloat (pyStrip (parts.getD 3 "")) with
      | some sx, some sy, some ex, some ey =>
        match sc.scale sx sy true prevent_failsafe strict with
        | .ok (x1, y1) =>
          match sc.scale ex ey true prevent_failsafe strict with
          | .ok (x2, y2) => .ok (x1, y1, x2, y2)
          | .error e =>
            .error ("Failed to parse drag coords " ++ pyRepr argument ++ ": " ++ e ++
              ". Coordinates must be comma-separated numeric values.")
        | .error e =>
          .error ("Failed to parse drag coords " ++ pyRepr argument ++ ": " ++ e ++
            ". Coordinates must be comma-separated numeric values.")
      | _, _, _, _ =>
        .error ("Failed to parse drag coords " ++ pyRepr argument ++
          ". Coordinates must be comma-separated numeric values.")

/-- Embedding of `handler.utils.parse_scroll_coords`. -/
def parse_scroll_coords (argument : String) (sc : CoordinateScaler)
    (prevent_failsafe strict : Bool) : Except String (Int × Int × String) :=
  let parts := (pySplit argument ',').map pyStrip
  if parts.length ≠ 3 then
    .error ("Invalid scroll format: " ++ pyRepr argument ++
      ". Expected \x27x, y, direction\x27 (e.g., \x27500, 300, up\x27)")
  else
    match pyParseFloat (parts.getD 0 ""), pyParseFloat (parts.getD 1 "") with
    | some x, some y =>
      let direction := pyLower (parts.getD 2 "")
      if direction ≠ "up" && direction ≠ "down" then
        .error ("Invalid scroll direction: " ++ pyRepr direction ++ ". Use \x27up\x27 or \x27down\x27.")
      else
        match sc.scale x y true prevent_failsafe strict with
        | .ok (sx, sy) => .ok (sx, sy, direction)
        | .error e =>
          .error ("Failed to parse scroll coords " ++ pyRepr argument ++ ": " ++ e ++
            ". Format: \x27x, y, direction\x27")
    | _, _ =>
      .error ("Failed to parse scroll coords " ++ pyRepr argument ++
        ". Format: \x27x, y, direction\x27")

/-! ## OagiActionConverter (`src/oagi/converters/oagi.py`) -/

/-- Errors raised by a converter `__call__`: the duplicate-terminal
`ValueError` and the aggregate `RuntimeError` carrying every
`(action_repr, cause)` pair collected during the batch. -/
inductive ConvError
  | duplicate (msg : String)
  | allFailed (failed : List (String × String))
deriving DecidableEq

/-- Embedding of `OagiActionConverter._convert_single_action`.  The scaler is
the one `BaseActionConverter.__init__` builds from `coord_width = 1000` and
the config's sandbox extents; the capslock manager is threaded explicitly
(the only mutation happens on the success path of a session-mode capslock
hotkey, as in the source). -/
def oagiConvertSingle (cfg : ConverterConfig) (caps : CapsLockManager) (a : Action) :
    Except String (List String × CapsLockManager) :=
  let action_type := a.type.value
  let argument := pyStripChars ['(', ')'] a.argument
  let sc := CoordinateScaler.make 1000 1000 cfg.sandbox_width cfg.sandbox_height 0 0
  let strict := cfg.strict_coordinate_validation
  let dd := pyFloatStr cfg.drag_duration
  let hi := pyFloatStr cfg.hotkey_interval
  if action_type = "click" then
    (parse_click_coords argument sc false strict).map (fun (x, y) =>
      (["pyautogui.click(x=" ++ toString x ++ ", y=" ++ toString y ++ ")"], caps))
  else if action_type = "left_double" then
    (parse_click_coords argument sc false strict).map (fun (x, y) =>
      (["pyautogui.doubleClick(x=" ++ toString x ++ ", y=" ++ toString y ++ ")"], caps))
  else if action_type = "left_triple" then
    (parse_click_coords argument sc false strict).map (fun (x, y) =>
      (["pyautogui.tripleClick(x=" ++ toString x ++ ", y=" ++ toString y ++ ")"], caps))
  else if action_type = "right_single" then
    (parse_click_coords argument sc false strict).map (fun (x, y) =>
      (["pyautogui.rightClick(x=" ++ toString x ++ ", y=" ++ toString y ++ ")"], caps))
  else if action_type = "drag" then
    (parse_drag_coords argument sc false strict).map (fun (sx, sy, ex, ey) =>
      (["pyautogui.moveTo(" ++ toString sx ++ ", " ++ toString sy ++ ")",
        "pyautogui.dragTo(" ++ toString ex ++ ", " ++ toString ey ++ ", duration=" ++ dd ++ ")"],
       caps))
  else if action_type = "hotkey" then
    match parse_hotkey argument true with
    | .error e => .error e
    | .ok keys =>
      let valid_keys := keys.filter (· ≠ "")
      if valid_keys.isEmpty then
        .error ("Invalid hotkey format: " ++ pyRepr argument ++
          ". Expected key names like \x27ctrl+c\x27, \x27alt+tab\x27")
      else if valid_keys = ["capslock"] then
        if caps.should_use_system_capslock then
          .ok (["pyautogui.hotkey(\x27capslock\x27, interval=" ++ hi ++ ")"], caps)
        else
          .ok ([], caps.toggle)
      else
        let keys_str := joinWith ", " (valid_keys.map pyRepr)
        .ok (["pyautogui.hotkey(" ++ keys_str ++ ", interval=" ++ hi ++ ")"], caps)
  else if action_type = "type" then
    let text := pyStripChars ['"', squote] argument
    let text := caps.transform_text text
    .ok (["pyautogui.typewrite(" ++ pyRepr text ++ ")"], caps)
  else if action_type = "scroll" then
    (parse_scroll_coords argument sc false strict).map (fun (x, y, direction) =>
      let amount := if direction = "up" then cfg.scroll_amount else -cfg.scroll_amount
      (["pyautogui.moveTo(" ++ toString x ++ ", " ++ toString y ++ ")",
        "pyautogui.scroll(" ++ toString amount ++ ")"], caps))
  else if action_type = "wait" then
    if argument = "" then .ok (["WAIT(" ++ pyFloatStr cfg.wait_duration ++ ")"], caps)
    else
      match pyParseFloat argument with
      | some seconds => .ok (["WAIT(" ++ pyFloatStr seconds ++ ")"], caps)
      | none =>
        .error ("Invalid wait duration: " ++ pyRepr argument ++
          ". Expected numeric value in seconds.")
  else if action_type = "finish" then
    .ok (["DONE"], caps)
  else if action_type = "call_user" then
    .ok ([], caps)
  else
    .error ("Unknown action type: " ++ pyRepr action_type ++
      ". Supported: click, left_double, left_triple, right_single, drag, " ++
      "hotkey, type, scroll, wait, finish, call_user")

/-- The repeat expansion shared by `_convert_action` in both converters:
emit the single-conversion commands `count` times, flagging only the final
command of the final repeat. -/
def repeatWithLast (singles : List String) (count : Int) : List (String × Bool) :=
  (List.range count.toNat).flatMap (fun i =>
    singles.enum.map (fun js =>
      (js.2, decide (i = count.toNat - 1) && decide (js.1 = singles.length - 1))))

/-- Embedding of `OagiActionConverter._convert_action`: `action.count or 1`
repeats of the single conversion, with per-repeat `is_last` flags. -/
def oagiConvertAction (cfg : ConverterConfig) (caps : CapsLockManager) (a : Action) :
    Except String (List (String × Bool) × CapsLockManager) :=
  let count : Int := match a.count with | none => 1 | some c => if c = 0 then 1 else c
  match oagiConvertSingle cfg caps a with
  | .error e => .error e
  | .ok (singles, caps') => .ok (repeatWithLast singles count, caps')

/-- The `f"{action.type.value}({action.argument})"` rendering used in failure
entries. -/
def actionRepr (a : Action) : String := a.type.value ++ "(" ++ a.argument ++ ")"

/-- The duplicate-finish `ValueError` message of `OagiActionConverter`. -/
def oagiDupMsg : String :=
  "Duplicate finish() detected. Only one finish() is allowed per action sequence."

/-- The duplicate-terminal `ValueError` message of `PyautoguiActionConvertor`. -/
def pyconvDupMsg : String :=
  "Duplicate finish()/fail() detected. Only one finish() or fail() is allowed per action sequence."

/-- The iteration of `OagiActionConverter.__call__`: accumulates converted
pairs and failures, raising on a second `finish()` (only `FINISH` is checked,
not `FAIL`). -/
def oagiLoop (cfg : ConverterConfig) (caps : CapsLockManager) (hasFinish : Bool)
    (conv : List (String × Bool)) (failed : List (String × String)) :
    List Action → Except ConvError (List (String × Bool) × List (String × String) × CapsLockManager)
  | [] => .ok (conv, failed, caps)
  | a :: rest =>
    let is_finish := a.type = ActionType.FINISH
    if is_finish && hasFinish then
      .error (.duplicate oagiDupMsg)
    else
      let hasFinish' := hasFinish || is_finish
      match oagiConvertAction cfg caps a with
      | .ok (out, caps') => oagiLoop cfg caps' hasFinish' (conv ++ out) failed rest
      | .error e => oagiLoop cfg caps hasFinish' conv (failed ++ [(actionRepr a, e)]) rest

/-- Embedding of `OagiActionConverter.__call__`. -/
def oagiCall (cfg : ConverterConfig) (caps : CapsLockManager) (actions : List Action) :
    Except ConvError (List (String × Bool)) :=
  if actions.isEmpty then .ok []
  else
    match oagiLoop cfg caps false [] [] actions with
    | .error e => .error e
    | .ok (conv, failed, _) =>
      if conv.isEmpty && !actions.isEmpty && !failed.isEmpty then .error (.allFailed failed)
      else .ok conv

/-! ## PyautoguiActionConvertor
(`src/oagi/converters/pyautogui_action_converter.py`) -/

/-- Embedding of `make_type_command` (`src/oagi/handler/utils.py`): short
ASCII single-line text types through `PynputController`, everything else
pastes; empty text raises `ValueError`. -/
def make_type_command (text : String) : Except String String :=
  if text = "" then .error "Empty text for type command — invalid model output"
  else
    let has_unicode := text.toList.any (fun c => c.toNat > 127)
    if !has_unicode && !text.toList.contains '\n' && text.length ≤ 200 then
      .ok ("PynputController().type(" ++ pyRepr text ++ ")")
    else
      .ok ("_smart_paste(" ++ pyRepr text ++ ")")

/-- Embedding of `PyautoguiActionConvertor._denormalize_coords`: validates
against the fixed `[0, 1000]` model range (always, regardless of any strict
flag), scales by `sandbox / 1000`, and clamps into the sandbox. -/
def pyconvDenormalizeCoords (cfg : PyautoguiConfig) (x y : ℚ) : Except String (Int × Int) :=
  if x < 0 || x > 1000 then
    .error ("x coordinate " ++ pyFloatStr x ++ " out of valid range [0, 1000]. " ++
      "Coordinates must be normalized between 0 and 1000.")
  else if y < 0 || y > 1000 then
    .error ("y coordinate " ++ pyFloatStr y ++ " out of valid range [0, 1000]. " ++
      "Coordinates must be normalized between 0 and 1000.")
  else
    let scaled_x := pyRound (x * ((cfg.sandbox_width : ℚ) / 1000))
    let scaled_y := pyRound (y * ((cfg.sandbox_height : ℚ) / 1000))
    .ok (max 0 (min scaled_x (cfg.sandbox_width - 1)),
         max 0 (min scaled_y (cfg.sandbox_height - 1)))

/-- Embedding of `PyautoguiActionConvertor._parse_click_coords`. -/
def pyconvParseClickCoords (cfg : PyautoguiConfig) (argument : String) :
    Except String (Int × Int) :=
  if containsSub (pyLower argument) " and " || containsSub (pyLower argument) " then " then
    .error ("Invalid click format: " ++ pyRepr argument ++
      ". Cannot combine multiple actions with \x27and\x27 or \x27then\x27. " ++
      "Each action must be separate in the action list.")
  else
    let parts := if argument = "" then [] else pySplit argument ','
    if parts.length < 2 then
      .error ("Invalid click coordinate format: " ++ pyRepr argument ++
        ". Expected \x27x, y\x27 (comma-separated numeric values)")
    else
      match pyParseFloat (pyStrip (parts.getD 0 "")), pyParseFloat (pyStrip (parts.getD 1 "")) with
      | some x, some y =>
        match pyconvDenormalizeCoords cfg x y with
        | .ok p => .ok p
        | .error e =>
          .error ("Failed to parse click coords " ++ pyRepr argument ++ ": " ++ e ++
            ". Coordinates must be comma-separated numeric values, e.g., \x27click(500, 300)\x27")
      | _, _ =>
        .error ("Failed to parse click coords " ++ pyRepr argument ++
          ". Coordinates must be comma-separated numeric values, e.g., \x27click(500, 300)\x27")

/-- Embedding of `PyautoguiActionConvertor._parse_drag_coords`. -/
def pyconvParseDragCoords (cfg : PyautoguiConfig) (argument : String) :
    Except String (Int × Int × Int × Int) :=
  if containsSub (pyLower argument) " and " || containsSub (pyLower argument) " then " then
    .error ("Invalid drag format: " ++ pyRepr argument ++
      ". Cannot combine multiple actions with \x27and\x27 or \x27then\x27. " ++
      "Each action must be separate in the action list.")
  else
    let parts := if argument = "" then [] else pySplit argument ','
    if parts.length ≠ 4 then
      .error ("Invalid drag coordinate format: " ++ pyRepr argument ++
        ". Expected \x27x1, y1, x2, y2\x27 (4 comma-separated numeric values)")
    else
      match pyParseFloat (pyStrip (parts.getD 0 "")), pyParseFloat (pyStrip (parts.getD 1 "")),
            pyParseFloat (pyStrip (parts.getD 2 "")), pyParseFloat (pyStrip (parts.getD 3 "")) with
      | some sx0, some sy0, some ex0, some ey0 =>
        match pyconvDenormalizeCoords cfg sx0 sy0 with
        | .ok (sx, sy) =>
          match pyconvDenormalizeCoords cfg ex0 ey0 with
          | .ok (ex, ey) => .ok (sx, sy, ex, ey)
          | .error e =>
            .error ("Failed to parse drag coords " ++ pyRepr argument ++ ": " ++ e ++
              ". Coordinates must be comma-separated numeric values, e.g., \x27drag(100, 200, 300, 400)\x27")
        | .error e =>
          .error ("Failed to parse drag coords " ++ pyRepr argument ++ ": " ++ e ++
            ". Coordinates must be comma-separated numeric values, e.g., \x27drag(100, 200, 300, 400)\x27")
      | _, _, _, _ =>
        .error ("Failed to parse drag coords " ++ pyRepr argument ++
          ". Coordinates must be comma-separated numeric values, e.g., \x27drag(100, 200, 300, 400)\x27")

/-- Embedding of `PyautoguiActionConvertor._convert_single_action`. -/
def pyconvConvertSingle (cfg : PyautoguiConfig) (caps : CapsLockManager) (a : Action) :
    Except String (List String × CapsLockManager) :=
  let action_type := a.type.value
  let argument := pyStripChars ['(', ')'] a.argument
  let dd := pyFloatStr cfg.drag_duration
  let hi := pyFloatStr cfg.hotkey_interval
  if action_type = "click" then
    (pyconvParseClickCoords cfg argument).map (fun (x, y) =>
      (["pyautogui.click(x=" ++ toString x ++ ", y=" ++ toString y ++ ")"], caps))
  else if action_type = "left_double" then
    (pyconvParseClickCoords cfg argument).map (fun (x, y) =>
      (["pyautogui.doubleClick(x=" ++ toString x ++ ", y=" ++ toString y ++ ")"], caps))
  else if action_type = "left_triple" then
    (pyconvParseClickCoords cfg argument).map (fun (x, y) =>
      (["pyautogui.tripleClick(x=" ++ toString x ++ ", y=" ++ toString y ++ ")"], caps))
  else if action_type = "right_single" then
    (pyconvParseClickCoords cfg argument).map (fun (x, y) =>
      (["pyautogui.rightClick(x=" ++ toString x ++ ", y=" ++ toString y ++ ")"], caps))
  else if action_type = "drag" then
    (pyconvParseDragCoords cfg argument).map (fun (sx, sy, ex, ey) =>
      (["pyautogui.moveTo(" ++ toString sx ++ ", " ++ toString sy ++ ")",
        "pyautogui.dragTo(" ++ toString ex ++ ", " ++ toString ey ++ ", duration=" ++ dd ++ ")"],
       caps))
  else if action_type = "hotkey" then
    match pyconvParseHotkey argument with
    | .error e => .error e
    | .ok keys =>
      let valid_keys := keys.filter (· ≠ "")
      if valid_keys.isEmpty then
        .error ("Invalid hotkey format: " ++ pyRepr argument ++
          ". Expected key names like \x27ctrl+c\x27, \x27alt+tab\x27, got empty or invalid keys")
      else if valid_keys = ["capslock"] then
        if caps.should_use_system_capslock then
          .ok (["pyautogui.hotkey(\x27capslock\x27, interval=" ++ hi ++ ")"], caps)
        else
          .ok ([], caps.toggle)
      else
        let keys_str := joinWith ", " (valid_keys.map pyRepr)
        .ok (["pyautogui.hotkey(" ++ keys_str ++ ", interval=" ++ hi ++ ")"], caps)
  else if action_type = "type" then
    let text := pyStripChars ['"', squote] argument
    let text := caps.transform_text text
    (make_type_command text).map (fun cmd => ([cmd], caps))
  else if action_type = "scroll" then
    let parts := (pySplit argument ',').map pyStrip
    if parts.length ≠ 3 then
      .error ("Invalid scroll format: " ++ pyRepr argument ++
        ". Expected \x27x, y, direction\x27 (3 comma-separated values), got " ++
        toString parts.length ++ " parts")
    else
      match pyParseFloat (parts.getD 0 ""), pyParseFloat (parts.getD 1 "") with
      | some x0, some y0 =>
        match pyconvDenormalizeCoords cfg x0 y0 with
        | .error e => .error e
        | .ok (x, y) =>
          let direction := pyStrip (pyLower (parts.getD 2 ""))
          if direction = "up" then
            .ok (["pyautogui.moveTo(" ++ toString x ++ ", " ++ toString y ++ ")",
                  "pyautogui.scroll(" ++ toString cfg.scroll_amount ++ ")"], caps)
          else if direction = "down" then
            .ok (["pyautogui.moveTo(" ++ toString x ++ ", " ++ toString y ++ ")",
                  "pyautogui.scroll(" ++ toString (-cfg.scroll_amount) ++ ")"], caps)
          else
            .error ("Invalid scroll direction: " ++ pyRepr direction ++ " in " ++
              pyRepr argument ++ ". Expected \x27up\x27 or \x27down\x27")
      | _, _ =>
        .error ("Invalid scroll coordinates: " ++ pyRepr argument ++
          ". x and y must be numeric values, e.g., \x27scroll(500, 300, up)\x27")
  else if action_type = "wait" then
    if argument = "" then .ok (["WAIT(" ++ pyFloatStr cfg.wait_duration ++ ")"], caps)
    else
      match pyParseFloat argument with
      | some seconds => .ok (["WAIT(" ++ pyFloatStr seconds ++ ")"], caps)
      | none =>
        .error ("Invalid wait duration: " ++ pyRepr argument ++
          ". Expected numeric value in seconds, e.g., \x27wait(2.0)\x27")
  else if action_type = "finish" then
    .ok (["DONE"], caps)
  else if action_type = "fail" then
    .ok (["FAIL"], caps)
  else if action_type = "call_user" then
    .ok ([], caps)
  else
    .error ("Unknown action type: " ++ pyRepr action_type ++
      ". Supported types: click, left_double, left_triple, right_single, drag, " ++
      "hotkey, type, scroll, wait, finish, fail")

/-- Embedding of `PyautoguiActionConvertor._convert_action` (the attribute
checks are constant-true on `Action` records). -/
def pyconvConvertAction (cfg : PyautoguiConfig) (caps : CapsLockManager) (a : Action) :
    Except String (List (String × Bool) × CapsLockManager) :=
  let count : Int := match a.count with | none => 1 | some c => if c = 0 then 1 else c
  match pyconvConvertSingle cfg caps a with
  | .error e => .error e
  | .ok (singles, caps') => .ok (repeatWithLast singles count, caps')

/-- The iteration of `PyautoguiActionConvertor.__call__`: both `finish` and
`fail` count as terminal for the duplicate check. -/
def pyconvLoop (cfg : PyautoguiConfig) (caps : CapsLockManager) (hasTerminal : Bool)
    (conv : List (String × Bool)) (failed : List (String × String)) :
    List Action → Except ConvError (List (String × Bool) × List (String × String) × CapsLockManager)
  | [] => .ok (conv, failed, caps)
  | a :: rest =>
    let is_terminal := a.type.value = "finish" || a.type.value = "fail"
    if is_terminal && hasTerminal then
      .error (.duplicate pyconvDupMsg)
    else
      let hasTerminal' := hasTerminal || is_terminal
      match pyconvConvertAction cfg caps a with
      | .ok (out, caps') => pyconvLoop cfg caps' hasTerminal' (conv ++ out) failed rest
      | .error e => pyconvLoop cfg caps hasTerminal' conv (failed ++ [(actionRepr a, e)]) rest

/-- Embedding of `PyautoguiActionConvertor.__call__`.  Unlike the base class
and `OagiActionConverter`, the final aggregate check does not require a
non-empty failure list: any non-empty batch producing zero commands raises. -/
def pyconvCall (cfg : PyautoguiConfig) (caps : CapsLockManager) (actions : List Action) :
    Except ConvError (List (String × Bool)) :=
  if actions.isEmpty then .ok []
  else
    match pyconvLoop cfg caps false [] [] actions with
    | .error e => .error e
    | .ok (conv, failed, _) =>
      if conv.isEmpty && !actions.isEmpty then .error (.allFailed failed)
      else .ok conv

/-! ## BaseActionConverter.__call__ (`src/oagi/converters/base.py`) -/

/-- The iteration of `BaseActionConverter.__call__`, generic over the dialect
action type `T` and converter state `S`: a single conversion yielding `[]` is
recorded as skipped (a no-op), a raised exception is recorded as a failure,
and anything else extends the converted list. -/
def baseLoop {T S : Type} (conv : S → T → Except String (List String × S))
    (typeRepr : T → String) (fullRepr : T → String) :
    S → List String → List (String × String) → List String → List T →
    List String × List (String × String) × List String × S
  | s, converted, failed, skipped, [] => (converted, failed, skipped, s)
  | s, converted, failed, skipped, a :: rest =>
    match conv s a with
    | .ok ([], s') =>
      baseLoop conv typeRepr fullRepr s' converted failed (skipped ++ [typeRepr a]) rest
    | .ok (out, s') =>
      baseLoop conv typeRepr fullRepr s' (converted ++ out) failed skipped rest
    | .error e =>
      baseLoop conv typeRepr fullRepr s converted (failed ++ [(fullRepr a, e)]) skipped rest

/-- Embedding of `BaseActionConverter.__call__`: returns the flat command
list, raising the aggregate `RuntimeError` only when the batch is non-empty,
nothing was converted, and at least one failure was recorded. -/
def baseCall {T S : Type} (conv : S → T → Except String (List String × S))
    (typeRepr : T → String) (fullRepr : T → String) (s : S) (actions : List T) :
    Except ConvError (List String) :=
  if actions.isEmpty then .ok []
  else
    let r := baseLoop conv typeRepr fullRepr s [] [] [] actions
    if r.1.isEmpty && !actions.isEmpty && !r.2.1.isEmpty then .error (.allFailed r.2.1)
    else .ok r.1

/-! ## Qwen3ActionConverter (`src/oagi/converters/qwen3.py`) -/

/-- Embedding of the `Qwen3Action` dataclass (numeric payloads as `ℚ`). -/
structure Qwen3Action where
  action_type : String
  coordinate : Option (List ℚ)
  text : Option String
  keys : Option (List String)
  pixels : Option Int
  time : Option ℚ
  status : Option String
deriving DecidableEq

/-- The mutable cursor state of `Qwen3ActionConverter` (initialized at the
sandbox center). -/
structure Qwen3State where
  last_x : Int
  last_y : Int
deriving DecidableEq

/-- Embedding of `Qwen3ActionConverter._get_coords_from_action`: explicit
coordinates are truncated, scaled from the 0–999 space and stored as the new
cursor; otherwise the last cursor position is reused. -/
def qwen3GetCoords (cfg : ConverterConfig) (st : Qwen3State) (a : Qwen3Action) :
    (Int × Int) × Qwen3State :=
  let sc := CoordinateScaler.make 999 999 cfg.sandbox_width cfg.sandbox_height 0 0
  match a.coordinate with
  | some coords =>
    if coords.length ≥ 2 then
      let p := sc.scaleCore ((ratTrunc (coords.getD 0 0) : Int) : ℚ)
        ((ratTrunc (coords.getD 1 0) : Int) : ℚ) true false
      (p, { last_x := p.1, last_y := p.2 })
    else ((st.last_x, st.last_y), st)
  | none => ((st.last_x, st.last_y), st)

/-- Embedding of `Qwen3ActionConverter._convert_single_action`.  In
particular a `terminate` action returns the single command `"DONE"` whatever
its `status` field says. -/
def qwen3ConvertSingle (cfg : ConverterConfig) (st : Qwen3State) (a : Qwen3Action) :
    Except String (List String × Qwen3State) :=
  let action_type := pyLower a.action_type
  let sc := CoordinateScaler.make 999 999 cfg.sandbox_width cfg.sandbox_height 0 0
  let dd := pyFloatStr cfg.drag_duration
  let hi := pyFloatStr cfg.hotkey_interval
  if action_type = "mouse_move" then
    let (p, st') := qwen3GetCoords cfg st a
    .ok (["pyautogui.moveTo(" ++ toString p.1 ++ ", " ++ toString p.2 ++ ")"], st')
  else if action_type = "left_click" then
    let (p, st') := qwen3GetCoords cfg st a
    .ok (["pyautogui.click(x=" ++ toString p.1 ++ ", y=" ++ toString p.2 ++ ")"], st')
  else if action_type = "double_click" then
    let (p, st') := qwen3GetCoords cfg st a
    .ok (["pyautogui.doubleClick(x=" ++ toString p.1 ++ ", y=" ++ toString p.2 ++ ")"], st')
  else if action_type = "triple_click" then
    let (p, st') := qwen3GetCoords cfg st a
    .ok (["pyautogui.tripleClick(x=" ++ toString p.1 ++ ", y=" ++ toString p.2 ++ ")"], st')
  else if action_type = "right_click" then
    let (p, st') := qwen3GetCoords cfg st a
    .ok (["pyautogui.rightClick(x=" ++ toString p.1 ++ ", y=" ++ toString p.2 ++ ")"], st')
  else if action_type = "middle_click" then
    let (p, st') := qwen3GetCoords cfg st a
    .ok (["pyautogui.click(x=" ++ toString p.1 ++ ", y=" ++ toString p.2 ++
      ", button=\x27middle\x27)"], st')
  else if action_type = "left_click_drag" then
    match a.coordinate with
    | some coords =>
      if coords.length ≥ 2 then
        let e := sc.scaleCore ((ratTrunc (coords.getD 0 0) : Int) : ℚ)
          ((ratTrunc (coords.getD 1 0) : Int) : ℚ) true false
        .ok (["pyautogui.moveTo(" ++ toString st.last_x ++ ", " ++ toString st.last_y ++ ")",
              "pyautogui.dragTo(" ++ toString e.1 ++ ", " ++ toString e.2 ++
                ", duration=" ++ dd ++ ")"],
             { last_x := e.1, last_y := e.2 })
      else .error "coordinate (end position) is required for left_click_drag"
    | none => .error "coordinate (end position) is required for left_click_drag"
  else if action_type = "type" then
    match a.text with
    | none => .error "text is required for type action"
    | some t =>
      let escaped := escapeForSingleQuotes t
      .ok (["pyautogui.typewrite(" ++ squote.toString ++ escaped ++ squote.toString ++ ")"], st)
  else if action_type = "key" then
    match a.keys with
    | none => .error "keys array is required for key action"
    | some ks =>
      if ks.isEmpty then .error "keys array is required for key action"
      else
        let keys := (ks.map (normalize_key · false false)).filter (· ≠ "")
        if keys.isEmpty then .error ("Invalid key combination: " ++ toString ks)
        else
          let keys_str := joinWith ", " (keys.map pyRepr)
          .ok (["pyautogui.hotkey(" ++ keys_str ++ ", interval=" ++ hi ++ ")"], st)
  else if action_type = "scroll" || action_type = "hscroll" then
    let (p, st') := qwen3GetCoords cfg st a
    let pixels := a.pixels.getD 0
    let scroll_val := if pixels ≥ 0 then cfg.scroll_amount else -cfg.scroll_amount
    .ok (["pyautogui.moveTo(" ++ toString p.1 ++ ", " ++ toString p.2 ++ ")",
          "pyautogui.scroll(" ++ toString scroll_val ++ ")"], st')
  else if action_type = "wait" then
    let duration := a.time.getD cfg.wait_duration
    .ok (["WAIT(" ++ pyFloatStr duration ++ ")"], st)
  else if action_type = "terminate" then
    .ok (["DONE"], st)
  else if action_type = "answer" then
    .ok ([], st)
  else
    .ok ([], st)
where
  /-- The `text.replace("\\", "\\\\").replace("'", "\\'")` escaping. -/
  escapeForSingleQuotes (t : String) : String :=
    String.join (t.toList.map (fun c =>
      if c = '\\' then "\\\\"
      else if c = squote then "\\" ++ squote.toString
      else c.toString))

/-! ## Step (parser output) -/

/-- Modelled from the spec: `oagi.types.models.step.Step` is imported by the
output parser but its source file is not under `src/`; per spec §3 it bundles
`reason` (string), `actions` (ordered Action list) and `stop` (true iff any
action is terminal, as computed by the parser). -/
structure Step where
  reason : String
  actions : List Action
  stop : Bool
deriving DecidableEq

/-! ## JSON values (model of Python `json.loads` output) -/

/-- JSON values as Python's `json.loads` produces them (`int` and `float`
kept distinct, objects as ordered key/value lists). -/
inductive JValue
  | null
  | bool (b : Bool)
  | int (n : Int)
  | float (q : ℚ)
  | str (s : String)
  | arr (xs : List JValue)
  | obj (fields : List (String × JValue))

/-- JSON whitespace accepted between tokens. -/
def jsonSkipWs (l : List Char) : List Char :=
  l.dropWhile (fun c => c = ' ' || c = '\t' || c = '\n' || c = '\r')

/-- Hexadecimal digit value. -/
def hexVal (c : Char) : Option Nat :=
  if c.isDigit then some (c.toNat - 48)
  else if 'a' ≤ c && c ≤ 'f' then some (c.toNat - 87)
  else if 'A' ≤ c && c ≤ 'F' then some (c.toNat - 70)
  else none

/-- Parse the remainder of a JSON string literal (opening quote consumed),
handling the standard escapes; unescaped control characters are rejected as
in Python's strict mode. -/
def jsonParseString : List Char → List Char → Option (String × List Char)
  | [], _ => none
  | '"' :: rest, acc => some (acc.reverse.asString, rest)
  | '\\' :: esc, acc =>
    match esc with
    | '"' :: rest => jsonParseString rest ('"' :: acc)
    | '\\' :: rest => jsonParseString rest ('\\' :: acc)
    | '/' :: rest => jsonParseString rest ('/' :: acc)
    | 'b' :: rest => jsonParseString rest (Char.ofNat 8 :: acc)
    | 'f' :: rest => jsonParseString rest (Char.ofNat 12 :: acc)
    | 'n' :: rest => jsonParseString rest ('\n' :: acc)
    | 'r' :: rest => jsonParseString rest ('\r' :: acc)
    | 't' :: rest => jsonParseString rest ('\t' :: acc)
    | 'u' :: h1 :: h2 :: h3 :: h4 :: rest =>
      match hexVal h1, hexVal h2, hexVal h3, hexVal h4 with
      | some a, some b, some c, some d =>
        jsonParseString rest (Char.ofNat (((a * 16 + b) * 16 + c) * 16 + d) :: acc)
      | _, _, _, _ => none
    | _ => none
  | c :: rest, acc => if c.toNat < 32 then none else jsonParseString rest (c :: acc)

/-- Parse a JSON number (with the no-leading-zero rule); a fractional part or
exponent makes it a Python `float`, otherwise an `int`. -/
def jsonParseNumber (l : List Char) : Option (JValue × List Char) :=
  let (sign, body) : ℚ × List Char :=
    match l with
    | '-' :: rest => (-1, rest)
    | rest => (1, rest)
  let intDigits := body.takeWhile Char.isDigit
  let afterInt := body.dropWhile Char.isDigit
  if intDigits.isEmpty then none
  else if intDigits.length > 1 && intDigits.headD '0' = '0' then none
  else
    let ip : Nat := (digitsVal intDigits).getD 0
    match afterInt with
    | '.' :: fr =>
      let fracDigits := fr.takeWhile Char.isDigit
      let afterFrac := fr.dropWhile Char.isDigit
      if fracDigits.isEmpty then none
      else
        let fp : Nat := (digitsVal fracDigits).getD 0
        let base : ℚ := (ip : ℚ) + (fp : ℚ) / ((10 : ℚ) ^ fracDigits.length)
        match afterFrac with
        | 'e' :: ex => jsonExp (sign * base) ex
        | 'E' :: ex => jsonExp (sign * base) ex
        | rest => some (.float (sign * base), rest)
    | 'e' :: ex => jsonExp (sign * (ip : ℚ)) ex
    | 'E' :: ex => jsonExp (sign * (ip : ℚ)) ex
    | rest => some (.int (if sign < 0 then -(ip : Int) else (ip : Int)), rest)
where
  /-- Exponent suffix: always yields a Python `float`. -/
  jsonExp (base : ℚ) (l : List Char) : Option (JValue × List Char) :=
    let (apply, ds) : (ℚ → Nat → ℚ) × List Char :=
      match l with
      | '+' :: rest => ((fun b n => b * (10 : ℚ) ^ n), rest)
      | '-' :: rest => ((fun b n => b / (10 : ℚ) ^ n), rest)
      | rest => ((fun b n => b * (10 : ℚ) ^ n), rest)
    let expDigits := ds.takeWhile Char.isDigit
    let rest := ds.dropWhile Char.isDigit
    if expDigits.isEmpty then none
    else some (.float (apply base ((digitsVal expDigits).getD 0)), rest)

mutual

/-- Fuel-indexed JSON value parser. -/
def jsonParseValue : Nat → List Char → Option (JValue × List Char)
  | 0, _ => none
  | fuel + 1, l =>
    let l := jsonSkipWs l
    match l with
    | [] => none
    | c :: rest =>
      if c = '"' then (jsonParseString rest []).map (fun p => (JValue.str p.1, p.2))
      else if c = '[' then
        match jsonSkipWs rest with
        | ']' :: r => some (JValue.arr [], r)
        | l1 => (jsonParseElems fuel l1).map (fun p => (JValue.arr p.1, p.2))
      else if c = '{' then
        match jsonSkipWs rest with
        | '}' :: r => some (JValue.obj [], r)
        | l1 => (jsonParseMembers fuel l1).map (fun p => (JValue.obj p.1, p.2))
      else if ("null".toList).isPrefixOf l then some (JValue.null, l.drop 4)
      else if ("true".toList).isPrefixOf l then some (JValue.bool true, l.drop 4)
      else if ("false".toList).isPrefixOf l then some (JValue.bool false, l.drop 5)
      else jsonParseNumber l

/-- Fuel-indexed parser for the elements of a non-empty JSON array. -/
def jsonParseElems : Nat → List Char → Option (List JValue × List Char)
  | 0, _ => none
  | fuel + 1, l =>
    match jsonParseValue fuel l with
    | none => none
    | some (v, r) =>
      match jsonSkipWs r with
      | ',' :: r2 => (jsonParseElems fuel r2).map (fun p => (v :: p.1, p.2))
      | ']' :: r2 => some ([v], r2)
      | _ => none

/-- Fuel-indexed parser for the members of a non-empty JSON object. -/
def jsonParseMembers : Nat → List Char → Option (List (String × JValue) × List Char)
  | 0, _ => none
  | fuel + 1, l =>
    match jsonSkipWs l with
    | '"' :: r =>
      match jsonParseString r [] with
      | none => none
      | some (k, r1) =>
        match jsonSkipWs r1 with
        | ':' :: r2 =>
          match jsonParseValue fuel r2 with
          | none => none
          | some (v, r3) =>
            match jsonSkipWs r3 with
            | ',' :: r4 => (jsonParseMembers fuel r4).map (fun p => ((k, v) :: p.1, p.2))
            | '}' :: r4 => some ([(k, v)], r4)
            | _ => none
        | _ => none
    | _ => none

end

/-- Model of Python `json.loads`: `none` plays the role of
`json.JSONDecodeError` (also raised on trailing garbage). -/
def jsonParse (s : String) : Option JValue :=
  match jsonParseValue (2 * s.length + 2) s.toList with
  | some (v, rest) => if jsonSkipWs rest = [] then some v else none
  | none => none

/-- `dict.get(key)` on a parsed JSON object: repeated keys overwrite, so the
last occurrence wins, as in a Python dict built by `json.loads`. -/
def jGet (fields : List (String × JValue)) (k : String) : Option JValue :=
  (fields.reverse.find? (fun p => p.1 = k)).map (fun p => p.2)

mutual

/-- Python `str(v)` of a decoded JSON value. -/
def pyStrOfJ : JValue → String
  | .null => "None"
  | .bool true => "True"
  | .bool false => "False"
  | .int n => toString n
  | .float q => pyFloatStr q
  | .str s => s
  | .arr xs => "[" ++ joinWith ", " (pyReprListOfJ xs) ++ "]"
  | .obj fs => "\x7b" ++ joinWith ", " (pyReprFieldsOfJ fs) ++ "\x7d"

/-- Python `repr(v)` rendering of each element of a list. -/
def pyReprListOfJ : List JValue → List String
  | [] => []
  | x :: xs => pyReprOfJ x :: pyReprListOfJ xs

/-- Python `repr(k): repr(v)` rendering of each member of a dict. -/
def pyReprFieldsOfJ : List (String × JValue) → List String
  | [] => []
  | (k, v) :: xs => (pyRepr k ++ ": " ++ pyReprOfJ v) :: pyReprFieldsOfJ xs

/-- Python `repr(v)` of a decoded JSON value. -/
def pyReprOfJ : JValue → String
  | .str s => pyRepr s
  | .null => "None"
  | .bool true => "True"
  | .bool false => "False"
  | .int n => toString n
  | .float q => pyFloatStr q
  | .arr xs => "[" ++ joinWith ", " (pyReprListOfJ xs) ++ "]"
  | .obj fs => "\x7b" ++ joinWith ", " (pyReprFieldsOfJ fs) ++ "\x7d"

end

/-- Python `int(v)` on a decoded JSON value (`bool` is an `int` subtype;
floats truncate toward zero; strings parse as integers; everything else
raises, modelled as `none`). -/
def pyIntOfJ : JValue → Option Int
  | .int n => some n
  | .bool true => some 1
  | .bool false => some 0
  | .float q => some (ratTrunc q)
  | .str s => pyParseInt s
  | _ => none

/-- Python `float(v)` on a decoded JSON value. -/
def pyFloatOfJ : JValue → Option ℚ
  | .int n => some (n : ℚ)
  | .bool true => some 1
  | .bool false => some 0
  | .float q => some q
  | .str s => pyParseFloat s
  | _ => none

/-! ## Output parser (`src/oagi/utils/output_parser.py`) -/

/-- Split on any character satisfying a predicate (Python `re.split` on a
character class). -/
def splitOnPred (p : Char → Bool) : List Char → List (List Char)
  | [] => [[]]
  | c :: cs =>
    match splitOnPred p cs with
    | [] => [[c]]
    | h :: t => if p c then [] :: h :: t else (c :: h) :: t

/-- Lower-case a character list (for the case-insensitive regex flags). -/
def toLowerList (l : List Char) : List Char := l.map Char.toLower

/-- First-match extraction of `openTag (.*?) closeTag` with `re.DOTALL`
(and optionally `re.IGNORECASE`): the span from the first opening tag to the
first closing tag after it, if both exist. -/
def extractTagged (raw openTag closeTag : String) (ci : Bool) : Option String :=
  let hay := raw.toList
  let hs := if ci then toLowerList hay else hay
  let ot := if ci then toLowerList openTag.toList else openTag.toList
  let ct := if ci then toLowerList closeTag.toList else closeTag.toList
  match findSubList hs ot 0 with
  | none => none
  | some i =>
    let start := i + ot.length
    match findSubList (hs.drop start) ct 0 with
    | none => none
    | some j => some ((hay.drop start).take j).asString

/-- The iteration of `re.findall` for
`<tool_call>\s*(.*?)\s*</tool_call>` (case-insensitive, DOTALL): every
stripped inner payload, scanning left to right. -/
def findToolCallsGo : Nat → List Char → List String
  | 0, _ => []
  | fuel + 1, hay =>
    let hs := toLowerList hay
    match findSubList hs ("<tool_call>".toList) 0 with
    | none => []
    | some i =>
      let start := i + 11
      match findSubList (hs.drop start) ("</tool_call>".toList) 0 with
      | none => []
      | some j =>
        pyStrip ((hay.drop start).take j).asString
          :: findToolCallsGo fuel (hay.drop (start + j + 12))

/-- All `<tool_call>` payloads of a raw output. -/
def findToolCalls (raw : String) : List String :=
  findToolCallsGo (raw.length + 1) raw.toList

/-- One attempt of `^\s*Action\s*:\s*(.+)$` at a line start. -/
def trySummaryAt (l : List Char) : Option String :=
  let l1 := l.dropWhile isPyWs
  if ("Action".toList).isPrefixOf l1 then
    let l2 := l1.drop 6
    let l3 := l2.dropWhile isPyWs
    match l3 with
    | ':' :: l4 =>
      let l5 := l4.dropWhile isPyWs
      match l5 with
      | [] => none
      | _ => some (pyStrip (l5.takeWhile (· ≠ '\n')).asString)
    | _ => none
  else none

/-- Embedding of `_extract_action_summary`: the first `Action: ...` line
(multiline anchored), stripped; empty string when absent. -/
def extractActionSummary (raw : String) : String :=
  go (raw.length + 1) raw.toList
where
  go : Nat → List Char → String
  | 0, _ => ""
  | fuel + 1, l =>
    match trySummaryAt l with
    | some s => s
    | none =>
      match l.dropWhile (· ≠ '\n') with
      | [] => ""
      | _ :: tl => go fuel tl

/-- Drop trailing Python whitespace. -/
def stripRightWs (s : String) : String :=
  (s.toList.reverse.dropWhile isPyWs).reverse.asString

/-- Embedding of `_strip_code_fence` (the two anchored `re.sub`s are
equivalent to prefix/suffix removal under the final strip). -/
def stripCodeFence (text : String) : String :=
  let s := pyStrip text
  if ("```".toList).isPrefixOf s.toList then
    let l := s.toList.drop 3
    let l := if toLowerList (l.take 4) = "json".toList then l.drop 4 else l
    let l := l.dropWhile isPyWs
    let s2 := l.asString
    let s3 := stripRightWs s2
    let s4 :=
      if ("```".toList.reverse).isPrefixOf s3.toList.reverse then
        (s3.toList.take (s3.length - 3)).asString
      else s2
    pyStrip s4
  else s

/-- Embedding of `_parse_tool_call_json`: JSON-decode the fenced-stripped
payload and keep it only if it is a dict. -/
def parseToolCallJson (content : String) : Option (List (String × JValue)) :=
  match jsonParse (stripCodeFence content) with
  | some (.obj fields) => some fields
  | _ => none

/-- Embedding of `_extract_keys`. -/
def extractKeys (v : Option JValue) : List String :=
  match v with
  | some (.arr xs) => (xs.map (fun k => pyStrip (pyStrOfJ k))).filter (· ≠ "")
  | some (.str s) =>
    ((splitOnPred (fun c => c = '+' || c = ',') s.toList).map
      (fun t => pyStrip t.asString)).filter (· ≠ "")
  | _ => []

/-- Embedding of `_extract_coords`. -/
def extractCoords (v : Option JValue) : Option (Int × Int) :=
  match v with
  | some (.arr xs) =>
    if xs.length ≥ 2 then
      match pyFloatOfJ (xs.getD 0 .null), pyFloatOfJ (xs.getD 1 .null) with
      | some a, some b => some (ratTrunc a, ratTrunc b)
      | _, _ => none
    else none
  | _ => none

/-- Embedding of `_coerce_positive_int` (only ever called with default 1). -/
def coercePositiveInt (v : Option JValue) (default : Int) : Int :=
  match v with
  | none => default
  | some jv =>
    match pyIntOfJ jv with
    | none => default
    | some p => max p 1

/-- Embedding of `_coerce_float`. -/
def coerceFloat (v : Option JValue) (default : ℚ) : ℚ :=
  match v with
  | none => default
  | some jv => (pyFloatOfJ jv).getD default

/-- Embedding of `_parse_scroll_direction_and_count`. -/
def parseScrollDirectionAndCount (args : List (String × JValue)) : String × Int :=
  let direction := pyLower (pyStrip (pyStrOfJ ((jGet args "direction").getD (.str ""))))
  let signed : Int :=
    match (jGet args "count").getD (.int 1) with
    | .int n => n
    | .bool b => if b then 1 else 0
    | .float q => ratTrunc q
    | _ => 1
  let direction :=
    if direction ≠ "up" && direction ≠ "down" then
      if signed < 0 then "down" else "up"
    else direction
  (direction, max signed.natAbs 1)

/-- The `json.dumps(..., ensure_ascii=False, separators=(",", ":"))` string
escaping. -/
def jsonDumpStr (s : String) : String :=
  "\"" ++ String.join (s.toList.map (fun c =>
    if c = '"' then "\\\""
    else if c = '\\' then "\\\\"
    else if c = '\n' then "\\n"
    else if c = '\r' then "\\r"
    else if c = '\t' then "\\t"
    else if c.toNat < 32 then "\\u00" ++ (if c.toNat < 16 then "0" else "1") ++
      (toString (Char.ofNat (if c.toNat % 16 < 10 then 48 + c.toNat % 16 else 87 + c.toNat % 16)))
    else c.toString)) ++ "\""

/-- The action-name dispatch of `_parse_qwen3_tool_call` (the source's
single local `action_name` / `arguments` variables become parameters). -/
def parseQwen3ToolCallAction (action_name : String) (args : List (String × JValue)) :
    Except String (Option Action) :=
  let count := coercePositiveInt (jGet args "count") 1
  if action_name = "key" then
    let keys := extractKeys (jGet args "keys")
    if keys.isEmpty then .ok none
    else (mkAction ActionType.HOTKEY (joinWith "+" keys) (some count)).map some
  else if action_name = "type" then
    let text := pyStrOfJ ((jGet args "text").getD (.str ""))
    (mkAction ActionType.TYPE text (some count)).map some
  else if action_name = "mouse_move" then
    match extractCoords (jGet args "coordinate") with
    | none => .ok none
    | some (x, y) =>
      (mkAction ActionType.MOUSE_MOVE (toString x ++ ", " ++ toString y)
        (some count)).map some
  else if action_name = "left_click" then
    match extractCoords (jGet args "coordinate") with
    | none => .ok none
    | some (x, y) =>
      (mkAction ActionType.CLICK (toString x ++ ", " ++ toString y)
        (some count)).map some
  else if action_name = "right_click" then
    match extractCoords (jGet args "coordinate") with
    | none => .ok none
    | some (x, y) =>
      (mkAction ActionType.RIGHT_SINGLE (toString x ++ ", " ++ toString y)
        (some count)).map some
  else if action_name = "double_click" then
    match extractCoords (jGet args "coordinate") with
    | none => .ok none
    | some (x, y) =>
      (mkAction ActionType.LEFT_DOUBLE (toString x ++ ", " ++ toString y)
        (some count)).map some
  else if action_name = "triple_click" then
    match extractCoords (jGet args "coordinate") with
    | none => .ok none
    | some (x, y) =>
      (mkAction ActionType.LEFT_TRIPLE (toString x ++ ", " ++ toString y)
        (some count)).map some
  else if action_name = "left_click_drag" then
    match extractCoords (jGet args "coordinate") with
    | none => .ok none
    | some (x, y) =>
      (mkAction ActionType.LEFT_CLICK_DRAG (toString x ++ ", " ++ toString y)
        (some count)).map some
  else if action_name = "press_click" then
    match extractCoords (jGet args "coordinate") with
    | none => .ok none
    | some (x, y) =>
      let keys := extractKeys (jGet args "keys")
      let click_type := pyLower (pyStrip (pyStrOfJ ((jGet args "click_type").getD (.str ""))))
      if click_type = "left_click" || click_type = "right_click"
          || click_type = "double_click" || click_type = "triple_click" then
        let payload := "\x7b\"keys\":[" ++ joinWith "," (keys.map jsonDumpStr)
          ++ "],\"click_type\":" ++ jsonDumpStr click_type
          ++ ",\"coordinate\":[" ++ toString x ++ "," ++ toString y ++ "]\x7d"
        (mkAction ActionType.PRESS_CLICK payload (some count)).map some
      else .ok none
  else if action_name = "scroll" then
    let coords := (extractCoords (jGet args "coordinate")).getD (500, 500)
    let dc := parseScrollDirectionAndCount args
    (mkAction ActionType.SCROLL
      (toString coords.1 ++ ", " ++ toString coords.2 ++ ", " ++ dc.1)
      (some dc.2)).map some
  else if action_name = "wait" then
    let wait_time := coerceFloat (jGet args "time") 1
    (mkAction ActionType.WAIT (pyFloatStr wait_time) (some 1)).map some
  else if action_name = "terminate" then
    let status := pyLower (pyStrip (pyStrOfJ ((jGet args "status").getD (.str "success"))))
    let terminal_type := if status = "failure" then ActionType.FAIL else ActionType.FINISH
    (mkAction terminal_type "" (some 1)).map some
  else .ok none

/-- Embedding of `_parse_qwen3_tool_call`: convert one decoded tool-call
object into an `Action`; `None` (malformed or foreign) becomes `.ok none`,
and pydantic validation errors propagate (they cannot occur here because all
constructed counts are at least 1 — proved below). -/
def parseQwen3ToolCall (fields : List (String × JValue)) : Except String (Option Action) :=
  let name := pyStrip (pyStrOfJ ((jGet fields "name").getD (.str "")))
  if name ≠ "" && name ≠ "computer_use" then .ok none
  else
    let rawArgs := jGet fields "arguments"
    let decoded : Option JValue :=
      match rawArgs with
      | some (.str s) => jsonParse s
      | v => v
    match decoded with
    | some (.obj args) =>
      let action_name := pyLower (pyStrip (pyStrOfJ ((jGet args "action").getD (.str ""))))
      if action_name = "" then .ok none
      else parseQwen3ToolCallAction action_name args
    | _ => .ok none

/-- The per-payload iteration of `_parse_qwen3_output`: malformed payloads
are skipped, recognized actions are appended in order. -/
def qwen3ActLoop : List String → Except String (List Action)
  | [] => .ok []
  | c :: cs =>
    match parseToolCallJson c with
    | none => qwen3ActLoop cs
    | some fields =>
      match parseQwen3ToolCall fields with
      | .error e => .error e
      | .ok none => qwen3ActLoop cs
      | .ok (some a) =>
        match qwen3ActLoop cs with
        | .error e => .error e
        | .ok rest => .ok (a :: rest)

/-- Embedding of `_parse_qwen3_output`. -/
def parseQwen3Output (raw : String) : Except String Step :=
  let reason0 :=
    match extractTagged raw "<think>" "</think>" true with
    | some inner => pyStrip inner
    | none => ""
  let summary := extractActionSummary raw
  let reason := if reason0 = "" && summary ≠ "" then summary else reason0
  match qwen3ActLoop (findToolCalls raw) with
  | .error e => .error e
  | .ok actions =>
    .ok { reason := reason, actions := actions, stop := actions.any Action.isTerminal }

/-- The character loop of `_split_actions`: split on `&` only at parenthesis
depth zero (depth is a plain integer and may go negative, as in the source). -/
def splitActionsGo : List Char → List Char → Int → List String → List String
  | [], cur, _, outAcc =>
    let s := pyStrip cur.reverse.asString
    if s = "" then outAcc else outAcc ++ [s]
  | c :: rest, cur, lvl, outAcc =>
    if c = '(' then splitActionsGo rest (c :: cur) (lvl + 1) outAcc
    else if c = ')' then splitActionsGo rest (c :: cur) (lvl - 1) outAcc
    else if c = '&' && lvl = 0 then
      let s := pyStrip cur.reverse.asString
      splitActionsGo rest [] 0 (if s = "" then outAcc else outAcc ++ [s])
    else splitActionsGo rest (c :: cur) lvl outAcc

/-- Embedding of `_split_actions`. -/
def splitActions (action_block : String) : List String :=
  splitActionsGo action_block.toList [] 0 []

/-- Python `\w` (word character), ASCII model. -/
def isWordChar (c : Char) : Bool := c.isAlphanum || c = '_'

/-- Last index of a character in a list, if present. -/
def lastIdxOf (l : List Char) (c : Char) : Option Nat :=
  go l 0 none
where
  go : List Char → Nat → Option Nat → Option Nat
  | [], _, best => best
  | x :: xs, i, best => go xs (i + 1) (if x = c then some i else best)

/-- The anchored-prefix match of `(\w+)\((.*)\)` with DOTALL: a word prefix,
a literal `(`, greedy content up to the last `)` anywhere in the remainder. -/
def matchActionRegex (s : String) : Option (String × String) :=
  let l := s.toList
  let name := l.takeWhile isWordChar
  let rest := l.dropWhile isWordChar
  if name.isEmpty then none
  else
    match rest with
    | '(' :: body =>
      match lastIdxOf body ')' with
      | none => none
      | some j => some (name.asString, (body.take j).asString)
    | _ => none

/-- Embedding of `_parse_action`: `None` for unmatched or unknown actions;
the pydantic validation of the parsed repeat count can raise (modelled as
`.error`). -/
def parseActionTxt (action_text : String) : Except String (Option Action) :=
  match matchActionRegex (pyStrip action_text) with
  | none => .ok none
  | some (name, rawArgs) =>
    let action_type := pyLower name
    let arguments := if action_type = "type" then rawArgs else pyStrip rawArgs
    match actionTypeOfValue action_type with
    | none => .ok none
    | some action_enum =>
      match action_enum with
      | ActionType.HOTKEY =>
        let args := pyRsplitOnce arguments ','
        if args.length ≥ 2 && pyStrip (args.getD 1 "") ≠ "" then
          let key := pyStrip (args.getD 0 "")
          let count := (pyParseInt (pyStrip (args.getD 1 ""))).getD 1
          (mkAction action_enum key (some count)).map some
        else
          (mkAction action_enum (pyStrip arguments) (some 1)).map some
      | ActionType.SCROLL =>
        let args := pySplit arguments ','
        if args.length ≥ 4 then
          let x := pyStrip (args.getD 0 "")
          let y := pyStrip (args.getD 1 "")
          let direction := pyStrip (args.getD 2 "")
          let count := (pyParseInt (pyStrip (args.getD 3 ""))).getD 1
          (mkAction action_enum (x ++ "," ++ y ++ "," ++ direction) (some count)).map some
        else
          (mkAction action_enum arguments (some 1)).map some
      | _ => (mkAction action_enum arguments (some 1)).map some

/-- The per-action-text iteration of `_parse_legacy_output`: unparsable
texts are skipped; the stop flag is set when a terminal action is appended. -/
def legacyLoop (acc : List Action) (stop : Bool) :
    List String → Except String (List Action × Bool)
  | [] => .ok (acc, stop)
  | t :: ts =>
    match parseActionTxt (pyStrip t) with
    | .error e => .error e
    | .ok none => legacyLoop acc stop ts
    | .ok (some a) => legacyLoop (acc ++ [a]) (stop || a.isTerminal) ts

/-- Embedding of `_parse_legacy_output`. -/
def parseLegacyOutput (raw : String) : Except String Step :=
  let reason :=
    match extractTagged raw "<|think_start|>" "<|think_end|>" false with
    | some inner => pyStrip inner
    | none => ""
  match extractTagged raw "<|action_start|>" "<|action_end|>" false with
  | none => .ok { reason := reason, actions := [], stop := false }
  | some blockRaw =>
    match legacyLoop [] false (splitActions (pyStrip blockRaw)) with
    | .error e => .error e
    | .ok p => .ok { reason := reason, actions := p.1, stop := p.2 }

/-- Embedding of `parse_raw_output(raw_output, parser_mode)`; an unsupported
mode raises `ValueError`. -/
def parse_raw_output (raw_output parser_mode : String) : Except String Step :=
  if parser_mode = "qwen3" then parseQwen3Output raw_output
  else if parser_mode = "legacy" then parseLegacyOutput raw_output
  else if parser_mode = "auto" then
    if containsSub raw_output "<tool_call>" then
      match parseQwen3Output raw_output with
      | .error e => .error e
      | .ok q =>
        if q.actions ≠ [] || q.reason ≠ "" then .ok q
        else autoFallback raw_output
    else autoFallback raw_output
  else
    .error ("Unsupported parser_mode: " ++ parser_mode
      ++ ". Expected one of \x27qwen3\x27, \x27legacy\x27, \x27auto\x27.")
where
  /-- The tail of the `auto` branch after an unproductive first try. -/
  autoFallback (raw_output : String) : Except String Step :=
    if containsSub raw_output "<|action_start|>" || containsSub raw_output "<|think_start|>" then
      parseLegacyOutput raw_output
    else
      match parseQwen3Output raw_output with
      | .error e => .error e
      | .ok q =>
        if q.actions ≠ [] || q.reason ≠ "" then .ok q
        else parseLegacyOutput raw_output

/-! ## Counting helpers used by the theorem statements -/

/-- Did this `Except` computation succeed? -/
def isOkE {ε α : Type} : Except ε α → Bool
  | .ok _ => true
  | .error _ => false

/-- Number of emitted pairs whose `is_last` flag is set. -/
def trueCount (l : List (String × Bool)) : Nat := (l.filter (fun p => p.2)).length

/-- Number of `finish` actions in a batch (what `OagiActionConverter`'s
duplicate check looks at). -/
def countFinish (actions : List Action) : Nat :=
  actions.countP (fun a => a.type = ActionType.FINISH)

/-- Number of terminal (`finish`/`fail`) actions in a batch (what
`PyautoguiActionConvertor`'s duplicate check looks at). -/
def countTerminal (actions : List Action) : Nat :=
  actions.countP (fun a => a.type.value = "finish" || a.type.value = "fail")

end Oagi

namespace Oagi

/-! ## Theorems -/

/-- The core computable `Rat.floor` agrees with Mathlib's `⌊⌋`. -/
theorem ratFloor_eq_intFloor (q : ℚ) : q.floor = ⌊q⌋ := by
  rw [Rat.floor_def', Rat.floor_def]

/-- Rounding an exact integer is the identity. -/
theorem pyRound_intCast (n : Int) : pyRound (n : ℚ) = n := by
  unfold pyRound
  rw [ratFloor_eq_intFloor, Int.floor_intCast]
  simp

/-- Sum of a constant map. -/
theorem sum_map_const_eq {α : Type} (l : List α) (L : Nat) :
    (l.map (fun _ => L)).sum = l.length * L := by
  induction l with
  | nil => simp
  | cons x xs ih => simp [ih, Nat.succ_mul, Nat.add_comm]

/-- The flagged block built from `enumFrom k` marks exactly the last command. -/
theorem enumFrom_block_last (xs : List String) (k : Nat) (hxs : xs ≠ []) :
    (List.enumFrom k xs).map (fun js => (js.2, decide (js.1 = k + xs.length - 1)))
      = (xs.dropLast.map (fun s => (s, false))) ++ [(xs.getLast hxs, true)] := by
  induction xs generalizing k with
  | nil => exact absurd rfl hxs
  | cons x tl ih =>
    cases tl with
    | nil => simp [List.enumFrom]
    | cons y tl' =>
      have htl : (y :: tl') ≠ [] := by simp
      have hkflag : decide (k = k + (x :: y :: tl').length - 1) = false := by
        simp only [decide_eq_false_iff_not, List.length_cons]
        omega
      have hshift : k + (x :: y :: tl').length - 1 = (k + 1) + (y :: tl').length - 1 := by
        simp only [List.length_cons]
        omega
      have hstep : List.enumFrom k (x :: y :: tl')
          = (k, x) :: List.enumFrom (k + 1) (y :: tl') := rfl
      rw [hstep, List.map_cons, hkflag]
      have hrest : (List.enumFrom (k + 1) (y :: tl')).map
            (fun js => (js.2, decide (js.1 = k + (x :: y :: tl').length - 1)))
          = (List.enumFrom (k + 1) (y :: tl')).map
            (fun js => (js.2, decide (js.1 = (k + 1) + (y :: tl').length - 1))) := by
        apply List.map_congr_left
        intro a _
        rw [hshift]
      rw [hrest, ih (k + 1) htl, List.dropLast_cons₂, List.map_cons, List.getLast_cons htl]
      rfl

/-- The flagged block of `enum` marks exactly the last command. -/
theorem enum_block_last (xs : List String) (hxs : xs ≠ []) :
    xs.enum.map (fun js => (js.2, decide (js.1 = xs.length - 1)))
      = (xs.dropLast.map (fun s => (s, false))) ++ [(xs.getLast hxs, true)] := by
  have h := enumFrom_block_last xs 0 hxs
  simpa using h

/-- A block with a false outer flag carries no marks. -/
theorem enum_block_false (xs : List String) (d : Nat → Bool) :
    xs.enum.map (fun js => (js.2, false && d js.1)) = xs.map (fun s => (s, false)) := by
  have h1 : (fun (js : Nat × String) => (js.2, false && d js.1))
      = ((fun s => (s, false)) ∘ Prod.snd) := by
    funext js
    simp
  rw [h1, ← List.map_map, List.enum_map_snd]

/-- `repeatWithLast` on an empty single-conversion list emits nothing. -/
theorem repeatWithLast_nil (count : Int) : repeatWithLast [] count = [] := by
  simp [repeatWithLast]

/-- Total length of the repeat expansion. -/
theorem repeatWithLast_length (singles : List String) (count : Int) :
    (repeatWithLast singles count).length = count.toNat * singles.length := by
  unfold repeatWithLast
  rw [List.length_flatMap]
  have h1 : ∀ i : Nat, ((fun i => singles.enum.map (fun js =>
      (js.2, decide (i = count.toNat - 1) && decide (js.1 = singles.length - 1)))) i).length
      = singles.length := by
    intro i
    simp [List.enum_length]
  calc (List.map (List.length ∘ fun i => singles.enum.map fun js =>
          (js.2, decide (i = count.toNat - 1) && decide (js.1 = singles.length - 1)))
          (List.range count.toNat)).sum
      = (List.map (fun _ => singles.length) (List.range count.toNat)).sum := by
        apply congrArg
        apply List.map_congr_left
        intro i _
        exact h1 i
    _ = count.toNat * singles.length := by
        rw [sum_map_const_eq]
        simp

/-- Structure of the repeat expansion: everything is unflagged except the
single final entry, which carries the last command. -/
theorem repeatWithLast_decomp (singles : List String) (count : Int)
    (h1 : singles ≠ []) (hc : 1 ≤ count) :
    ∃ mid, repeatWithLast singles count = mid ++ [(singles.getLast h1, true)]
      ∧ (∀ p ∈ mid, p.2 = false) := by
  have hn : 1 ≤ count.toNat := by omega
  obtain ⟨m, hm⟩ : ∃ m, count.toNat = m + 1 := ⟨count.toNat - 1, by omega⟩
  unfold repeatWithLast
  rw [hm, List.range_succ, List.flatMap_append, List.flatMap_cons, List.flatMap_nil,
    List.append_nil]
  have hlastblock : singles.enum.map (fun js =>
      (js.2, decide (m = m + 1 - 1) && decide (js.1 = singles.length - 1)))
      = (singles.dropLast.map (fun s => (s, false))) ++ [(singles.getLast h1, true)] := by
    calc singles.enum.map (fun js =>
          (js.2, decide (m = m + 1 - 1) && decide (js.1 = singles.length - 1)))
        = singles.enum.map (fun js => (js.2, decide (js.1 = singles.length - 1))) := by
          apply List.map_congr_left
          intro a _
          simp
      _ = (singles.dropLast.map (fun s => (s, false))) ++ [(singles.getLast h1, true)] :=
          enum_block_last singles h1
  rw [hlastblock]
  refine ⟨(List.range m).flatMap (fun i => singles.enum.map fun js =>
      (js.2, decide (i = m + 1 - 1) && decide (js.1 = singles.length - 1)))
      ++ singles.dropLast.map (fun s => (s, false)), by rw [List.append_assoc], ?_⟩
  intro p hp
  rcases List.mem_append.mp hp with hin | hin
  · obtain ⟨i, hi, hpi⟩ := List.mem_flatMap.mp hin
    have him : i ≠ m + 1 - 1 := by
      have := List.mem_range.mp hi
      omega
    have : singles.enum.map (fun js =>
        (js.2, decide (i = m + 1 - 1) && decide (js.1 = singles.length - 1)))
        = singles.map (fun s => (s, false)) := by
      have hd : decide (i = m + 1 - 1) = false := by simpa using him
      calc singles.enum.map (fun js =>
            (js.2, decide (i = m + 1 - 1) && decide (js.1 = singles.length - 1)))
          = singles.enum.map (fun js =>
            (js.2, false && decide (js.1 = singles.length - 1))) := by rw [hd]
        _ = singles.map (fun s => (s, false)) :=
            enum_block_false singles (fun n => decide (n = singles.length - 1))
    rw [this] at hpi
    obtain ⟨s, _, hps⟩ := List.mem_map.mp hpi
    rw [← hps]
  · obtain ⟨s, _, hps⟩ := List.mem_map.mp hin
    rw [← hps]

/-- Exactly one flagged entry in a non-trivial repeat expansion, and it is
the final one. -/
theorem repeatWithLast_one_true (singles : List String) (count : Int)
    (h1 : singles ≠ []) (hc : 1 ≤ count) :
    trueCount (repeatWithLast singles count) = 1
      ∧ (repeatWithLast singles count).getLast?.map Prod.snd = some true := by
  obtain ⟨mid, hdecomp, hfalse⟩ := repeatWithLast_decomp singles count h1 hc
  constructor
  · rw [hdecomp]
    unfold trueCount
    rw [List.filter_append]
    have hmid : mid.filter (fun p => p.2) = [] := by
      rw [List.filter_eq_nil_iff]
      intro p hp
      simp [hfalse p hp]
    rw [hmid]
    simp
  · rw [hdecomp, List.getLast?_concat]
    rfl

/-- C4: with source and target extents fixed by the constructor,
`scale(x, y)` at the exact boundary `x = source_width` clamps to
`target_width - 1` in non-strict mode; non-strict mode never raises;
in strict mode any `x < 0` or `x > source_width` (and analogously for `y`)
yields a range error, checked before any scaling is performed. -/
theorem scale_boundary_clamps_and_strict_raises :
    (∀ sw sh tw th : Int, ∀ y : ℚ, 0 < sw → 1 ≤ tw →
      ∃ ry, (CoordinateScaler.make sw sh tw th 0 0).scale (sw : ℚ) y true false false
        = .ok (tw - 1, ry)) ∧
    (∀ sc : CoordinateScaler, ∀ x y : ℚ, ∀ c pf : Bool,
      ∃ p, sc.scale x y c pf false = .ok p) ∧
    (∀ sc : CoordinateScaler, ∀ x y : ℚ, ∀ c pf : Bool,
      (x < 0 ∨ (sc.source_width : ℚ) < x) →
      ∃ msg, sc.scale x y c pf true = .error msg) ∧
    (∀ sc : CoordinateScaler, ∀ x y : ℚ, ∀ c pf : Bool,
      0 ≤ x → x ≤ (sc.source_width : ℚ) → (y < 0 ∨ (sc.source_height : ℚ) < y) →
      ∃ msg, sc.scale x y c pf true = .error msg) := by
  refine ⟨?_, ?_, ?_, ?_⟩
  · intro sw sh tw th y hsw htw
    have hswq : (sw : ℚ) ≠ 0 := Int.cast_ne_zero.mpr (by omega)
    have hx : (sw : ℚ) * ((tw : ℚ) / (sw : ℚ)) = (tw : ℚ) := by field_simp
    have hmin : min tw (tw - 1) = tw - 1 := min_eq_right (by omega)
    have hmax : max 0 (tw - 1) = tw - 1 := max_eq_right (by omega)
    refine ⟨max 0 (min (pyRound (y * ((th : ℚ) / (sh : ℚ)))) (th - 1)), ?_⟩
    unfold CoordinateScaler.scale CoordinateScaler.make CoordinateScaler.scaleCore
    simp [hx, pyRound_intCast, hmin, hmax]
  · intro sc x y c pf
    cases hres : sc.scale x y c pf false with
    | error e =>
      exfalso
      unfold CoordinateScaler.scale at hres
      simp at hres
    | ok p => exact ⟨p, rfl⟩
  · intro sc x y c pf hx
    unfold CoordinateScaler.scale
    have : (x < 0 || x > (sc.source_width : ℚ)) = true := by
      rcases hx with h | h
      · simp [h]
      · simp [h]
    simp [this]
  · intro sc x y c pf hx0 hxw hy
    unfold CoordinateScaler.scale
    have h1 : (x < 0 || x > (sc.source_width : ℚ)) = false := by
      simp only [Bool.or_eq_false_iff, decide_eq_false_iff_not, not_lt]
      exact ⟨hx0, hxw⟩
    have h2 : (y < 0 || y > (sc.source_height : ℚ)) = true := by
      rcases hy with h | h
      · simp [h]
      · simp [h]
    simp [h1, h2]

/-- Witness for C4 at the concrete 1000 → 1920×1080 configuration. -/
theorem scale_boundary_clamps_and_strict_raises_witness :
    (∃ ry, (CoordinateScaler.make 1000 1000 1920 1080 0 0).scale
        ((1000 : Int) : ℚ) 5 true false false = .ok (1919, ry)) ∧
    (∃ msg, (CoordinateScaler.make 1000 1000 1920 1080 0 0).scale
        1001 5 true false true = .error msg) :=
  ⟨by
    have h := scale_boundary_clamps_and_strict_raises.1 1000 1000 1920 1080 5
      (by decide) (by decide)
    simpa using h,
   scale_boundary_clamps_and_strict_raises.2.2.1
     (CoordinateScaler.make 1000 1000 1920 1080 0 0) 1001 5 true false
     (Or.inr (by decide))⟩

/-- Unfolding `countFinish` over a cons cell. -/
theorem countFinish_cons (a : Action) (rest : List Action) :
    countFinish (a :: rest)
      = countFinish rest + (if a.type = ActionType.FINISH then 1 else 0) := by
  unfold countFinish
  rw [List.countP_cons]
  congr 1
  simp

/-- Unfolding `countTerminal` over a cons cell. -/
theorem countTerminal_cons (a : Action) (rest : List Action) :
    countTerminal (a :: rest)
      = countTerminal rest
        + (if a.type.value = "finish" ∨ a.type.value = "fail" then 1 else 0) := by
  unfold countTerminal
  rw [List.countP_cons]
  congr 1
  by_cases h1 : a.type.value = "finish"
  · simp [h1]
  · by_cases h2 : a.type.value = "fail"
    · simp [h1, h2]
    · simp [h1, h2]

/-- Once a finish was seen, a further finish in the remainder makes the oagi
loop raise the duplicate error. -/
theorem oagiLoop_dup_of_seen : ∀ (actions : List Action) (cfg : ConverterConfig)
    (caps : CapsLockManager) (conv : List (String × Bool)) (failed : List (String × String)),
    1 ≤ countFinish actions →
    oagiLoop cfg caps true conv failed actions = .error (.duplicate oagiDupMsg) := by
  intro actions
  induction actions with
  | nil => intro cfg caps conv failed h; simp [countFinish] at h
  | cons a rest ih =>
    intro cfg caps conv failed h
    by_cases hfin : a.type = ActionType.FINISH
    · simp only [oagiLoop, hfin]
      simp
    · have hcount : 1 ≤ countFinish rest := by
        rw [countFinish_cons, if_neg hfin] at h
        omega
      simp only [oagiLoop]
      rw [show (decide (a.type = ActionType.FINISH) && true) = false by simp [hfin]]
      simp only [Bool.false_eq_true, if_false]
      rw [show (true || decide (a.type = ActionType.FINISH)) = true by simp]
      cases hconv : oagiConvertAction cfg caps a with
      | ok p =>
        obtain ⟨out, caps'⟩ := p
        dsimp only
        exact ih cfg caps' (conv ++ out) failed hcount
      | error e =>
        dsimp only
        exact ih cfg caps conv (failed ++ [(actionRepr a, e)]) hcount

/-- Two finishes in the batch make the oagi loop raise the duplicate error. -/
theorem oagiLoop_dup_of_two : ∀ (actions : List Action) (cfg : ConverterConfig)
    (caps : CapsLockManager) (conv : List (String × Bool)) (failed : List (String × String)),
    2 ≤ countFinish actions →
    oagiLoop cfg caps false conv failed actions = .error (.duplicate oagiDupMsg) := by
  intro actions
  induction actions with
  | nil => intro cfg caps conv failed h; simp [countFinish] at h
  | cons a rest ih =>
    intro cfg caps conv failed h
    by_cases hfin : a.type = ActionType.FINISH
    · have hcount : 1 ≤ countFinish rest := by
        rw [countFinish_cons, if_pos hfin] at h
        omega
      simp only [oagiLoop]
      rw [show (decide (a.type = ActionType.FINISH) && false) = false by simp]
      simp only [Bool.false_eq_true, if_false]
      rw [show (false || decide (a.type = ActionType.FINISH)) = true by simp [hfin]]
      cases hconv : oagiConvertAction cfg caps a with
      | ok p =>
        obtain ⟨out, caps'⟩ := p
        dsimp only
        exact oagiLoop_dup_of_seen rest cfg caps' (conv ++ out) failed hcount
      | error e =>
        dsimp only
        exact oagiLoop_dup_of_seen rest cfg caps conv (failed ++ [(actionRepr a, e)]) hcount
    · have hcount : 2 ≤ countFinish rest := by
        rw [countFinish_cons, if_neg hfin] at h
        omega
      simp only [oagiLoop]
      rw [show (decide (a.type = ActionType.FINISH) && false) = false by simp]
      simp only [Bool.false_eq_true, if_false]
      rw [show (false || decide (a.type = ActionType.FINISH)) = false by simp [hfin]]
      cases hconv : oagiConvertAction cfg caps a with
      | ok p =>
        obtain ⟨out, caps'⟩ := p
        dsimp only
        exact ih cfg caps' (conv ++ out) failed hcount
      | error e =>
        dsimp only
        exact ih cfg caps conv (failed ++ [(actionRepr a, e)]) hcount

/-- Once a terminal action was seen, a further terminal action makes the
pyautogui loop raise the duplicate error. -/
theorem pyconvLoop_dup_of_seen : ∀ (actions : List Action) (cfg : PyautoguiConfig)
    (caps : CapsLockManager) (conv : List (String × Bool)) (failed : List (String × String)),
    1 ≤ countTerminal actions →
    pyconvLoop cfg caps true conv failed actions = .error (.duplicate pyconvDupMsg) := by
  intro actions
  induction actions with
  | nil => intro cfg caps conv failed h; simp [countTerminal] at h
  | cons a rest ih =>
    intro cfg caps conv failed h
    by_cases hterm : a.type.value = "finish" ∨ a.type.value = "fail"
    · simp only [pyconvLoop]
      rw [show (decide (a.type.value = "finish") || decide (a.type.value = "fail")) = true by
        rcases hterm with h' | h' <;> simp [h']]
      simp
    · have hcount : 1 ≤ countTerminal rest := by
        rw [countTerminal_cons, if_neg hterm] at h
        omega
      push_neg at hterm
      simp only [pyconvLoop]
      rw [show ((decide (a.type.value = "finish") || decide (a.type.value = "fail")) && true)
          = false by simp [hterm.1, hterm.2]]
      simp only [Bool.false_eq_true, if_false]
      rw [show (true || (decide (a.type.value = "finish") || decide (a.type.value = "fail")))
          = true by simp]
      cases hconv : pyconvConvertAction cfg caps a with
      | ok p =>
        obtain ⟨out, caps'⟩ := p
        dsimp only
        exact ih cfg caps' (conv ++ out) failed hcount
      | error e =>
        dsimp only
        exact ih cfg caps conv (failed ++ [(actionRepr a, e)]) hcount

/-- Two terminal actions in the batch make the pyautogui loop raise the
duplicate error. -/
theorem pyconvLoop_dup_of_two : ∀ (actions : List Action) (cfg : PyautoguiConfig)
    (caps : CapsLockManager) (conv : List (String × Bool)) (failed : List (String × String)),
    2 ≤ countTerminal actions →
    pyconvLoop cfg caps false conv failed actions = .error (.duplicate pyconvDupMsg) := by
  intro actions
  induction actions with
  | nil => intro cfg caps conv failed h; simp [countTerminal] at h
  | cons a rest ih =>
    intro cfg caps conv failed h
    by_cases hterm : a.type.value = "finish" ∨ a.type.value = "fail"
    · have hcount : 1 ≤ countTerminal rest := by
        rw [countTerminal_cons, if_pos hterm] at h
        omega
      simp only [pyconvLoop]
      rw [show ((decide (a.type.value = "finish") || decide (a.type.value = "fail")) && false)
          = false by simp]
      simp only [Bool.false_eq_true, if_false]
      rw [show (false || (decide (a.type.value = "finish") || decide (a.type.value = "fail")))
          = true by rcases hterm with h' | h' <;> simp [h']]
      cases hconv : pyconvConvertAction cfg caps a with
      | ok p =>
        obtain ⟨out, caps'⟩ := p
        dsimp only
        exact pyconvLoop_dup_of_seen rest cfg caps' (conv ++ out) failed hcount
      | error e =>
        dsimp only
        exact pyconvLoop_dup_of_seen rest cfg caps conv
          (failed ++ [(actionRepr a, e)]) hcount
    · have hcount : 2 ≤ countTerminal rest := by
        rw [countTerminal_cons, if_neg hterm] at h
        omega
      push_neg at hterm
      simp only [pyconvLoop]
      rw [show ((decide (a.type.value = "finish") || decide (a.type.value = "fail")) && false)
          = false by simp]
      simp only [Bool.false_eq_true, if_false]
      rw [show (false || (decide (a.type.value = "finish") || decide (a.type.value = "fail")))
          = false by simp [hterm.1, hterm.2]]
      cases hconv : pyconvConvertAction cfg caps a with
      | ok p =>
        obtain ⟨out, caps'⟩ := p
        dsimp only
        exact ih cfg caps' (conv ++ out) failed hcount
      | error e =>
        dsimp only
        exact ih cfg caps conv (failed ++ [(actionRepr a, e)]) hcount

/-- C1 (amended): `PyautoguiActionConvertor` raises the duplicate-terminal
`ValueError` on any batch containing two terminal (`finish`/`fail`) actions,
so no command is returned; `OagiActionConverter` performs that check only for
`finish` — it raises on a second `finish`, and the counterexample shows a
`finish` + `fail` batch slipping through. -/
theorem duplicate_terminal_raises :
    (∀ (cfg : PyautoguiConfig) (caps : CapsLockManager) (actions : List Action),
      2 ≤ countTerminal actions →
      pyconvCall cfg caps actions = .error (.duplicate pyconvDupMsg)) ∧
    (∀ (cfg : ConverterConfig) (caps : CapsLockManager) (actions : List Action),
      2 ≤ countFinish actions →
      oagiCall cfg caps actions = .error (.duplicate oagiDupMsg)) := by
  constructor
  · intro cfg caps actions h
    have hne : actions ≠ [] := by
      intro he
      rw [he] at h
      simp [countTerminal] at h
    unfold pyconvCall
    rw [if_neg (by simpa using hne)]
    rw [pyconvLoop_dup_of_two actions cfg caps [] [] h]
  · intro cfg caps actions h
    have hne : actions ≠ [] := by
      intro he
      rw [he] at h
      simp [countFinish] at h
    unfold oagiCall
    rw [if_neg (by simpa using hne)]
    rw [oagiLoop_dup_of_two actions cfg caps [] [] h]

/-- Witness for C1: a `finish` + `fail` batch in the pyautogui converter and
a double-`finish` batch in the oagi converter both raise the duplicate error. -/
theorem duplicate_terminal_raises_witness :
    pyconvCall defaultPyautoguiConfig (CapsLockManager.make "session")
      [{ type := ActionType.FINISH, argument := "", count := some 1 },
       { type := ActionType.FAIL, argument := "", count := some 1 }]
      = .error (.duplicate pyconvDupMsg) ∧
    oagiCall defaultConverterConfig (CapsLockManager.make "session")
      [{ type := ActionType.FINISH, argument := "", count := some 1 },
       { type := ActionType.FINISH, argument := "", count := some 1 }]
      = .error (.duplicate oagiDupMsg) :=
  ⟨duplicate_terminal_raises.1 defaultPyautoguiConfig (CapsLockManager.make "session")
      _ (by decide),
   duplicate_terminal_raises.2 defaultConverterConfig (CapsLockManager.make "session")
      _ (by decide)⟩

/-- A non-positive repeat count expands to nothing (`range(int(count))` is
empty). -/
theorem repeatWithLast_nonpos (singles : List String) (count : Int) (h : count ≤ 0) :
    repeatWithLast singles count = [] := by
  unfold repeatWithLast
  rw [Int.toNat_of_nonpos h]
  simp

/-- Per-action block shape for `OagiActionConverter._convert_action`: either
nothing is emitted, or exactly one entry is flagged and it is the final one. -/
theorem oagiConvertAction_block (cfg : ConverterConfig) (caps : CapsLockManager)
    (a : Action) (out : List (String × Bool)) (caps' : CapsLockManager)
    (h : oagiConvertAction cfg caps a = .ok (out, caps')) :
    out = [] ∨ (trueCount out = 1 ∧ out.getLast?.map Prod.snd = some true) := by
  unfold oagiConvertAction at h
  cases hcs : oagiConvertSingle cfg caps a with
  | error e => rw [hcs] at h; cases h
  | ok p =>
    obtain ⟨singles, caps1⟩ := p
    rw [hcs] at h
    dsimp only at h
    injection h with h1
    injection h1 with hout hcaps
    subst hout
    by_cases hs : singles = []
    · left
      rw [hs, repeatWithLast_nil]
    · set cnt : Int := (match a.count with | none => 1 | some c => if c = 0 then 1 else c)
        with hcnt
      by_cases hpos : 1 ≤ cnt
      · right
        exact repeatWithLast_one_true singles cnt hs hpos
      · left
        exact repeatWithLast_nonpos singles cnt (by omega)

/-- Per-action block shape for `PyautoguiActionConvertor._convert_action`. -/
theorem pyconvConvertAction_block (cfg : PyautoguiConfig) (caps : CapsLockManager)
    (a : Action) (out : List (String × Bool)) (caps' : CapsLockManager)
    (h : pyconvConvertAction cfg caps a = .ok (out, caps')) :
    out = [] ∨ (trueCount out = 1 ∧ out.getLast?.map Prod.snd = some true) := by
  unfold pyconvConvertAction at h
  cases hcs : pyconvConvertSingle cfg caps a with
  | error e => rw [hcs] at h; cases h
  | ok p =>
    obtain ⟨singles, caps1⟩ := p
    rw [hcs] at h
    dsimp only at h
    injection h with h1
    injection h1 with hout hcaps
    subst hout
    by_cases hs : singles = []
    · left
      rw [hs, repeatWithLast_nil]
    · set cnt : Int := (match a.count with | none => 1 | some c => if c = 0 then 1 else c)
        with hcnt
      by_cases hpos : 1 ≤ cnt
      · right
        exact repeatWithLast_one_true singles cnt hs hpos
      · left
        exact repeatWithLast_nonpos singles cnt (by omega)

/-- C2 (amended): the `is_last` flag marks the final command of the final
repeat of each action — one flagged pair per command-emitting action, not a
single flag for the whole batch; for a batch whose commands come from a
single action the final pair alone is flagged. -/
theorem is_last_per_action :
    (∀ (cfg : ConverterConfig) (caps : CapsLockManager) (a : Action)
      (out : List (String × Bool)) (caps' : CapsLockManager),
      oagiConvertAction cfg caps a = .ok (out, caps') →
      out = [] ∨ (trueCount out = 1 ∧ out.getLast?.map Prod.snd = some true)) ∧
    (∀ (cfg : PyautoguiConfig) (caps : CapsLockManager) (a : Action)
      (out : List (String × Bool)) (caps' : CapsLockManager),
      pyconvConvertAction cfg caps a = .ok (out, caps') →
      out = [] ∨ (trueCount out = 1 ∧ out.getLast?.map Prod.snd = some true)) ∧
    (∀ (cfg : ConverterConfig) (caps : CapsLockManager) (a : Action)
      (out : List (String × Bool)),
      oagiCall cfg caps [a] = .ok out → out ≠ [] →
      trueCount out = 1 ∧ out.getLast?.map Prod.snd = some true) ∧
    (∀ (cfg : PyautoguiConfig) (caps : CapsLockManager) (a : Action)
      (out : List (String × Bool)),
      pyconvCall cfg caps [a] = .ok out → out ≠ [] →
      trueCount out = 1 ∧ out.getLast?.map Prod.snd = some true) := by
  refine ⟨oagiConvertAction_block, pyconvConvertAction_block, ?_, ?_⟩
  · intro cfg caps a out h hne
    unfold oagiCall at h
    rw [if_neg (by simp)] at h
    have hflag : (decide (a.type = ActionType.FINISH) && false) = false := by simp
    cases hca : oagiConvertAction cfg caps a with
    | ok p =>
      obtain ⟨out0, caps'⟩ := p
      have hl : oagiLoop cfg caps false [] [] [a] = .ok (out0, [], caps') := by
        simp only [oagiLoop, hflag, Bool.false_eq_true, if_false, hca, List.nil_append]
      rw [hl] at h
      dsimp only at h
      rcases oagiConvertAction_block cfg caps a out0 caps' hca with h0 | h0
      · rw [h0] at h
        simp at h
        exact absurd h hne
      · have : out0.isEmpty = false := by
          cases out0 with
          | nil => simp [trueCount] at h0
          | cons x xs => rfl
        rw [this] at h
        simp only [Bool.false_and, Bool.false_eq_true, if_false] at h
        injection h with hout
        rw [← hout]
        exact h0
    | error e =>
      have hl : oagiLoop cfg caps false [] [] [a]
          = .ok ([], [(actionRepr a, e)], caps) := by
        simp only [oagiLoop, hflag, Bool.false_eq_true, if_false, hca, List.nil_append]
      rw [hl] at h
      dsimp only at h
      simp at h
  · intro cfg caps a out h hne
    unfold pyconvCall at h
    rw [if_neg (by simp)] at h
    have hflag : ((decide (a.type.value = "finish") || decide (a.type.value = "fail"))
        && false) = false := by simp
    cases hca : pyconvConvertAction cfg caps a with
    | ok p =>
      obtain ⟨out0, caps'⟩ := p
      have hl : pyconvLoop cfg caps false [] [] [a] = .ok (out0, [], caps') := by
        simp only [pyconvLoop, hflag, Bool.false_eq_true, if_false, hca, List.nil_append]
      rw [hl] at h
      dsimp only at h
      rcases pyconvConvertAction_block cfg caps a out0 caps' hca with h0 | h0
      · rw [h0] at h
        simp at h
      · have : out0.isEmpty = false := by
          cases out0 with
          | nil => simp [trueCount] at h0
          | cons x xs => rfl
        rw [this] at h
        simp only [Bool.false_and, Bool.false_eq_true, if_false] at h
        injection h with hout
        rw [← hout]
        exact h0
    | error e =>
      have hl : pyconvLoop cfg caps false [] [] [a]
          = .ok ([], [(actionRepr a, e)], caps) := by
        simp only [pyconvLoop, hflag, Bool.false_eq_true, if_false, hca, List.nil_append]
      rw [hl] at h
      dsimp only at h
      simp at h

/-- Witness for C2: a single click with `count = 2` flags only the final pair. -/
theorem is_last_per_action_witness :
    trueCount [("pyautogui.click(x=960, y=324)", false),
               ("pyautogui.click(x=960, y=324)", true)] = 1 ∧
    ([("pyautogui.click(x=960, y=324)", false),
      ("pyautogui.click(x=960, y=324)", true)].getLast?).map Prod.snd = some true :=
  is_last_per_action.2.2.1 defaultConverterConfig (CapsLockManager.make "session")
    { type := ActionType.CLICK, argument := "500, 300", count := some 2 }
    [("pyautogui.click(x=960, y=324)", false), ("pyautogui.click(x=960, y=324)", true)]
    (by with_unfolding_all rfl) (by simp)

/-- Counterexample for C2 as stated: a two-click batch returns two pairs with
`is_last = true` — one per action — not exactly one for the whole batch. -/
theorem c2_two_clicks_two_flags :
    oagiCall defaultConverterConfig (CapsLockManager.make "session")
      [{ type := ActionType.CLICK, argument := "1, 2", count := some 1 },
       { type := ActionType.CLICK, argument := "3, 4", count := some 1 }]
      = .ok [("pyautogui.click(x=2, y=2)", true), ("pyautogui.click(x=6, y=4)", true)]
    ∧ trueCount [("pyautogui.click(x=2, y=2)", true), ("pyautogui.click(x=6, y=4)", true)]
      = 2 := by
  constructor
  · with_unfolding_all rfl
  · with_unfolding_all rfl

/-- C3 (amended): an action whose single conversion succeeds with `k`
commands expands under `count = n ≥ 1` to exactly `n × k` `(command,
is_last)` entries; when `k ≥ 1` exactly one entry is flagged — the final one
— and when `k = 0` nothing at all is emitted (so no entry is flagged). -/
theorem count_expansion :
    (∀ (cfg : ConverterConfig) (caps caps1 : CapsLockManager) (a : Action)
      (n : Int) (singles : List String),
      a.count = some n → 1 ≤ n →
      oagiConvertSingle cfg caps a = .ok (singles, caps1) →
      oagiConvertAction cfg caps a = .ok (repeatWithLast singles n, caps1)
        ∧ (repeatWithLast singles n).length = n.toNat * singles.length
        ∧ (singles ≠ [] → trueCount (repeatWithLast singles n) = 1
            ∧ (repeatWithLast singles n).getLast?.map Prod.snd = some true)
        ∧ (singles = [] → repeatWithLast singles n = [])) ∧
    (∀ (cfg : PyautoguiConfig) (caps caps1 : CapsLockManager) (a : Action)
      (n : Int) (singles : List String),
      a.count = some n → 1 ≤ n →
      pyconvConvertSingle cfg caps a = .ok (singles, caps1) →
      pyconvConvertAction cfg caps a = .ok (repeatWithLast singles n, caps1)
        ∧ (repeatWithLast singles n).length = n.toNat * singles.length
        ∧ (singles ≠ [] → trueCount (repeatWithLast singles n) = 1
            ∧ (repeatWithLast singles n).getLast?.map Prod.snd = some true)
        ∧ (singles = [] → repeatWithLast singles n = [])) := by
  constructor
  · intro cfg caps caps1 a n singles hcount hn hcs
    refine ⟨?_, repeatWithLast_length singles n,
      fun hs => repeatWithLast_one_true singles n hs hn,
      fun hs => by rw [hs, repeatWithLast_nil]⟩
    unfold oagiConvertAction
    rw [hcs, hcount]
    dsimp only
    rw [if_neg (by omega)]
  · intro cfg caps caps1 a n singles hcount hn hcs
    refine ⟨?_, repeatWithLast_length singles n,
      fun hs => repeatWithLast_one_true singles n hs hn,
      fun hs => by rw [hs, repeatWithLast_nil]⟩
    unfold pyconvConvertAction
    rw [hcs, hcount]
    dsimp only
    rw [if_neg (by omega)]

/-- Witness for C3: a click with `count = 3` expands to `3 × 1` entries with
one flagged final pair. -/
theorem count_expansion_witness :
    oagiConvertAction defaultConverterConfig (CapsLockManager.make "session")
      { type := ActionType.CLICK, argument := "10, 20", count := some 3 }
      = .ok (repeatWithLast ["pyautogui.click(x=19, y=22)"] 3, CapsLockManager.make "session")
    ∧ (repeatWithLast ["pyautogui.click(x=19, y=22)"] 3).length
        = (3 : Int).toNat * ["pyautogui.click(x=19, y=22)"].length
    ∧ (["pyautogui.click(x=19, y=22)"] ≠ [] →
        trueCount (repeatWithLast ["pyautogui.click(x=19, y=22)"] 3) = 1
        ∧ (repeatWithLast ["pyautogui.click(x=19, y=22)"] 3).getLast?.map Prod.snd
            = some true)
    ∧ (["pyautogui.click(x=19, y=22)"] = [] →
        repeatWithLast ["pyautogui.click(x=19, y=22)"] 3 = []) :=
  count_expansion.1 defaultConverterConfig (CapsLockManager.make "session")
    (CapsLockManager.make "session")
    { type := ActionType.CLICK, argument := "10, 20", count := some 3 }
    3 ["pyautogui.click(x=19, y=22)"] rfl (by decide) (by with_unfolding_all rfl)

/-- Counterexample for C3 as stated: a no-op action (`call_user`) with
`count = 2` converts successfully to `k = 0` commands, so the expansion has
`2 × 0 = 0` entries and no entry carries `is_last = true` — not "exactly
one". -/
theorem c3_noop_count_has_no_flag :
    oagiConvertAction defaultConverterConfig (CapsLockManager.make "session")
      { type := ActionType.CALL_USER, argument := "", count := some 2 }
      = .ok ([], CapsLockManager.make "session")
    ∧ trueCount [] = 0 := by
  constructor
  · with_unfolding_all rfl
  · rfl

/-- The only error the oagi loop itself raises is the duplicate error. -/
theorem oagiLoop_error_is_duplicate : ∀ (actions : List Action) (cfg : ConverterConfig)
    (caps : CapsLockManager) (hf : Bool) (conv : List (String × Bool))
    (failed : List (String × String)) (e : ConvError),
    oagiLoop cfg caps hf conv failed actions = .error e → ∃ m, e = .duplicate m := by
  intro actions
  induction actions with
  | nil =>
    intro cfg caps hf conv failed e h
    simp [oagiLoop] at h
  | cons a rest ih =>
    intro cfg caps hf conv failed e h
    simp only [oagiLoop] at h
    by_cases hc : (decide (a.type = ActionType.FINISH) && hf) = true
    · rw [if_pos hc] at h
      injection h with h1
      exact ⟨oagiDupMsg, h1.symm⟩
    · rw [if_neg hc] at h
      cases hca : oagiConvertAction cfg caps a with
      | ok p =>
        obtain ⟨out, caps'⟩ := p
        rw [hca] at h
        dsimp only at h
        exact ih cfg caps' _ (conv ++ out) failed e h
      | error e' =>
        rw [hca] at h
        dsimp only at h
        exact ih cfg caps _ conv (failed ++ [(actionRepr a, e')]) e h

/-- If every action in the batch is the no-op `call_user`, the oagi loop
passes through untouched. -/
theorem oagiLoop_all_call_user : ∀ (actions : List Action) (cfg : ConverterConfig)
    (caps : CapsLockManager) (conv : List (String × Bool))
    (failed : List (String × String)),
    (∀ a ∈ actions, a.type = ActionType.CALL_USER) →
    oagiLoop cfg caps false conv failed actions = .ok (conv, failed, caps) := by
  intro actions
  induction actions with
  | nil => intro cfg caps conv failed _; rfl
  | cons a rest ih =>
    intro cfg caps conv failed h
    have ha : a.type = ActionType.CALL_USER := h a (List.mem_cons_self a rest)
    have hsingle : oagiConvertSingle cfg caps a = .ok ([], caps) := by
      obtain ⟨t, arg, cnt⟩ := a
      simp only at ha
      subst ha
      rfl
    have hact : oagiConvertAction cfg caps a = .ok ([], caps) := by
      unfold oagiConvertAction
      rw [hsingle]
      dsimp only
      rw [repeatWithLast_nil]
    simp only [oagiLoop]
    rw [show (decide (a.type = ActionType.FINISH) && false) = false by simp]
    simp only [Bool.false_eq_true, if_false]
    rw [hact]
    dsimp only
    rw [List.append_nil]
    rw [show (false || decide (a.type = ActionType.FINISH)) = false by simp [ha]]
    exact ih cfg caps conv failed (fun x hx => h x (List.mem_cons_of_mem a hx))

/-- If every conversion is a no-op, the base loop only grows the skip list. -/
theorem baseLoop_all_noop {T S : Type} (conv : S → T → Except String (List String × S))
    (tr fr : T → String) : ∀ (actions : List T) (s : S) (converted : List String)
    (failed : List (String × String)) (skipped : List String),
    (∀ (s' : S) (a : T), a ∈ actions → ∃ s'', conv s' a = .ok ([], s'')) →
    ∃ sk' s'', baseLoop conv tr fr s converted failed skipped actions
      = (converted, failed, sk', s'') := by
  intro actions
  induction actions with
  | nil => intro s converted failed skipped _; exact ⟨skipped, s, rfl⟩
  | cons a rest ih =>
    intro s converted failed skipped h
    obtain ⟨s'', hc⟩ := h s a (List.mem_cons_self a rest)
    simp only [baseLoop]
    rw [hc]
    exact ih s'' converted failed (skipped ++ [tr a])
      (fun s' x hx => h s' x (List.mem_cons_of_mem a hx))

/-- C5 (amended): the aggregate all-conversions-failed error of the base
converter and of `OagiActionConverter` is raised exactly when the batch is
non-empty, zero commands were produced, and at least one per-action failure
was recorded; the error then carries precisely the collected failure list;
and a non-empty batch of no-op actions does not raise.
(`PyautoguiActionConvertor` deviates: see the counterexample, it raises the
aggregate error on a command-less batch even with zero failures.) -/
theorem aggregate_error_gating :
    (∀ (cfg : ConverterConfig) (caps : CapsLockManager) (actions : List Action)
      (fs : List (String × String)),
      oagiCall cfg caps actions = .error (.allFailed fs) →
      actions ≠ [] ∧ fs ≠ []
        ∧ ∃ caps', oagiLoop cfg caps false [] [] actions = .ok ([], fs, caps')) ∧
    (∀ (cfg : ConverterConfig) (caps caps' : CapsLockManager) (actions : List Action)
      (fs : List (String × String)),
      actions ≠ [] → fs ≠ [] →
      oagiLoop cfg caps false [] [] actions = .ok ([], fs, caps') →
      oagiCall cfg caps actions = .error (.allFailed fs)) ∧
    (∀ (T S : Type) (conv : S → T → Except String (List String × S))
      (tr fr : T → String) (s : S) (actions : List T) (fs : List (String × String)),
      baseCall conv tr fr s actions = .error (.allFailed fs) →
      actions ≠ [] ∧ fs ≠ []
        ∧ (baseLoop conv tr fr s [] [] [] actions).1 = []
        ∧ (baseLoop conv tr fr s [] [] [] actions).2.1 = fs) ∧
    (∀ (T S : Type) (conv : S → T → Except String (List String × S))
      (tr fr : T → String) (s : S) (actions : List T) (fs : List (String × String)),
      actions ≠ [] → fs ≠ [] →
      (baseLoop conv tr fr s [] [] [] actions).1 = [] →
      (baseLoop conv tr fr s [] [] [] actions).2.1 = fs →
      baseCall conv tr fr s actions = .error (.allFailed fs)) ∧
    (∀ (T S : Type) (conv : S → T → Except String (List String × S))
      (tr fr : T → String) (s : S) (actions : List T),
      (∀ (s' : S) (a : T), a ∈ actions → ∃ s'', conv s' a = .ok ([], s'')) →
      baseCall conv tr fr s actions = .ok []) ∧
    (∀ (cfg : ConverterConfig) (caps : CapsLockManager) (actions : List Action),
      (∀ a ∈ actions, a.type = ActionType.CALL_USER) →
      oagiCall cfg caps actions = .ok []) := by
  refine ⟨?_, ?_, ?_, ?_, ?_, ?_⟩
  · intro cfg caps actions fs h
    unfold oagiCall at h
    by_cases he : actions.isEmpty = true
    · rw [if_pos he] at h
      cases h
    · rw [if_neg he] at h
      cases hl : oagiLoop cfg caps false [] [] actions with
      | error e =>
        rw [hl] at h
        dsimp only at h
        injection h with h1
        obtain ⟨m, hm⟩ := oagiLoop_error_is_duplicate actions cfg caps false [] [] e hl
        rw [hm] at h1
        cases h1
      | ok triple =>
        obtain ⟨conv, failed, capsE⟩ := triple
        rw [hl] at h
        dsimp only at h
        by_cases hcond : (conv.isEmpty && !actions.isEmpty && !failed.isEmpty) = true
        · rw [if_pos hcond] at h
          injection h with h1
          injection h1 with h2
          simp only [Bool.and_eq_true, Bool.not_eq_true'] at hcond
          obtain ⟨⟨hconv, hact⟩, hfail⟩ := hcond
          have hconvnil : conv = [] := by
            cases conv with
            | nil => rfl
            | cons x xs => simp at hconv
          have hfsne : fs ≠ [] := by
            rw [← h2]
            cases failed with
            | nil => simp at hfail
            | cons x xs => simp
          refine ⟨by simpa using he, hfsne, capsE, ?_⟩
          rw [hconvnil, h2]

        · rw [if_neg hcond] at h
          cases h
  · intro cfg caps caps' actions fs hne hfs hl
    unfold oagiCall
    rw [if_neg (by simpa using hne), hl]
    dsimp only
    rw [if_pos (by
      simp only [Bool.and_eq_true, Bool.not_eq_true']
      refine ⟨⟨rfl, by simpa using hne⟩, ?_⟩
      cases fs with
      | nil => exact absurd rfl hfs
      | cons x xs => rfl)]
  · intro T S conv tr fr s actions fs h
    unfold baseCall at h
    by_cases he : actions.isEmpty = true
    · rw [if_pos he] at h
      cases h
    · rw [if_neg he] at h
      dsimp only at h
      by_cases hcond : ((baseLoop conv tr fr s [] [] [] actions).1.isEmpty
          && !actions.isEmpty
          && !(baseLoop conv tr fr s [] [] [] actions).2.1.isEmpty) = true
      · rw [if_pos hcond] at h
        injection h with h1
        injection h1 with h2
        simp only [Bool.and_eq_true, Bool.not_eq_true'] at hcond
        obtain ⟨⟨hconv, hact⟩, hfail⟩ := hcond
        refine ⟨by simpa using he, ?_, by simpa using hconv, h2⟩
        rw [← h2]
        intro hnil
        rw [hnil] at hfail
        simp at hfail
      · rw [if_neg hcond] at h
        cases h
  · intro T S conv tr fr s actions fs hne hfs h1 h2
    unfold baseCall
    rw [if_neg (by simpa using hne)]
    dsimp only
    rw [if_pos (by
      simp only [Bool.and_eq_true, Bool.not_eq_true']
      refine ⟨⟨by simpa using h1, by simpa using hne⟩, ?_⟩
      rw [h2]
      cases fs with
      | nil => exact absurd rfl hfs
      | cons x xs => rfl), h2]
  · intro T S conv tr fr s actions h
    unfold baseCall
    by_cases he : actions.isEmpty = true
    · rw [if_pos he]
    · rw [if_neg he]
      obtain ⟨sk', s'', hloop⟩ := baseLoop_all_noop conv tr fr actions s [] [] [] h
      dsimp only
      rw [hloop]
      simp
  · intro cfg caps actions h
    unfold oagiCall
    by_cases he : actions.isEmpty = true
    · rw [if_pos he]
    · rw [if_neg he]
      rw [oagiLoop_all_call_user actions cfg caps [] [] h]
      simp

/-- Witness for C5: a non-empty oagi batch of only no-op `call_user` actions
produces zero commands and zero failures, and does not raise. -/
theorem aggregate_error_gating_witness :
    oagiCall defaultConverterConfig (CapsLockManager.make "session")
      [{ type := ActionType.CALL_USER, argument := "", count := some 1 }] = .ok [] :=
  aggregate_error_gating.2.2.2.2.2 defaultConverterConfig (CapsLockManager.make "session")
    [{ type := ActionType.CALL_USER, argument := "", count := some 1 }]
    (by intro a ha; simp at ha; rw [ha])

/-- Counterexample for C5 as stated: `PyautoguiActionConvertor` raises the
aggregate error on a non-empty batch of only no-op actions — zero commands
but also zero failures, and the enumerated failure list is empty. -/
theorem c5_pyconv_noop_batch_raises :
    pyconvCall defaultPyautoguiConfig (CapsLockManager.make "session")
      [{ type := ActionType.CALL_USER, argument := "", count := some 1 }]
      = .error (.allFailed []) := by
  with_unfolding_all rfl

/-- The coerced count is always at least one. -/
theorem coerce_ge_one (v : Option JValue) : 1 ≤ coercePositiveInt v 1 := by
  unfold coercePositiveInt
  cases v with
  | none => norm_num
  | some jv =>
    dsimp only
    cases hp : pyIntOfJ jv with
    | none => norm_num
    | some p =>
      dsimp only
      exact le_max_right p 1

/-- The scroll count is always at least one. -/
theorem scroll_count_ge_one (args : List (String × JValue)) :
    1 ≤ (parseScrollDirectionAndCount args).2 := by
  unfold parseScrollDirectionAndCount
  dsimp only
  exact_mod_cast le_max_right _ 1

/-- `mkAction` with a positive count always succeeds. -/
theorem mkAction_map_isOk (t : ActionType) (arg : String) (c : Int) (h : 1 ≤ c) :
    isOkE (Except.map some (mkAction t arg (some c))) = true := by
  unfold mkAction
  dsimp only
  rw [if_neg (by omega)]
  rfl

/-- A coordinate-bearing branch of the dispatch never raises. -/
theorem coordBranch_isOk (args : List (String × JValue)) (t : ActionType) :
    isOkE (match extractCoords (jGet args "coordinate") with
      | none => (Except.ok none : Except String (Option Action))
      | some (x, y) =>
        Except.map some (mkAction t (toString x ++ ", " ++ toString y)
          (some (coercePositiveInt (jGet args "count") 1)))) = true := by
  cases hco : extractCoords (jGet args "coordinate") with
  | none => rfl
  | some p =>
    obtain ⟨x, y⟩ := p
    dsimp only
    exact mkAction_map_isOk _ _ _ (coerce_ge_one _)

/-- The dispatch helper never raises. -/
theorem parseQwen3ToolCallAction_isOk (action_name : String)
    (args : List (String × JValue)) :
    isOkE (parseQwen3ToolCallAction action_name args) = true := by
  unfold parseQwen3ToolCallAction
  dsimp only
  by_cases h1 : action_name = "key"
  · rw [if_pos h1]
    by_cases hk : (extractKeys (jGet args "keys")).isEmpty = true
    · rw [if_pos hk]
      rfl
    · rw [if_neg hk]
      exact mkAction_map_isOk _ _ _ (coerce_ge_one _)
  rw [if_neg h1]
  by_cases h2 : action_name = "type"
  · rw [if_pos h2]
    exact mkAction_map_isOk _ _ _ (coerce_ge_one _)
  rw [if_neg h2]
  by_cases h3 : action_name = "mouse_move"
  · rw [if_pos h3]
    exact coordBranch_isOk args ActionType.MOUSE_MOVE
  rw [if_neg h3]
  by_cases h4 : action_name = "left_click"
  · rw [if_pos h4]
    exact coordBranch_isOk args ActionType.CLICK
  rw [if_neg h4]
  by_cases h5 : action_name = "right_click"
  · rw [if_pos h5]
    exact coordBranch_isOk args ActionType.RIGHT_SINGLE
  rw [if_neg h5]
  by_cases h6 : action_name = "double_click"
  · rw [if_pos h6]
    exact coordBranch_isOk args ActionType.LEFT_DOUBLE
  rw [if_neg h6]
  by_cases h7 : action_name = "triple_click"
  · rw [if_pos h7]
    exact coordBranch_isOk args ActionType.LEFT_TRIPLE
  rw [if_neg h7]
  by_cases h8 : action_name = "left_click_drag"
  · rw [if_pos h8]
    exact coordBranch_isOk args ActionType.LEFT_CLICK_DRAG
  rw [if_neg h8]
  by_cases h9 : action_name = "press_click"
  · rw [if_pos h9]
    cases hco : extractCoords (jGet args "coordinate") with
    | none => rfl
    | some p =>
      obtain ⟨x, y⟩ := p
      dsimp only
      by_cases hct : (pyLower (pyStrip (pyStrOfJ ((jGet args "click_type").getD (.str ""))))
            = "left_click"
          ∨ pyLower (pyStrip (pyStrOfJ ((jGet args "click_type").getD (.str ""))))
            = "right_click"
          ∨ pyLower (pyStrip (pyStrOfJ ((jGet args "click_type").getD (.str ""))))
            = "double_click"
          ∨ pyLower (pyStrip (pyStrOfJ ((jGet args "click_type").getD (.str ""))))
            = "triple_click")
      · rw [if_pos (by
          rcases hct with h | h | h | h <;> simp [h])]
        exact mkAction_map_isOk _ _ _ (coerce_ge_one _)
      · push_neg at hct
        rw [if_neg (by
          simp only [Bool.or_eq_true, decide_eq_true_eq]
          tauto)]
        rfl
  rw [if_neg h9]
  by_cases h10 : action_name = "scroll"
  · rw [if_pos h10]
    exact mkAction_map_isOk _ _ _ (scroll_count_ge_one _)
  rw [if_neg h10]
  by_cases h11 : action_name = "wait"
  · rw [if_pos h11]
    exact mkAction_map_isOk _ _ 1 le_rfl
  rw [if_neg h11]
  by_cases h12 : action_name = "terminate"
  · rw [if_pos h12]
    exact mkAction_map_isOk _ _ 1 le_rfl
  rw [if_neg h12]
  rfl

/-- Every decoded tool-call object parses without raising (as a Bool). -/
theorem parseQwen3ToolCall_isOk (fields : List (String × JValue)) :
    isOkE (parseQwen3ToolCall fields) = true := by
  unfold parseQwen3ToolCall
  dsimp only
  repeat' split
  all_goals first | rfl | apply parseQwen3ToolCallAction_isOk

/-- Every decoded tool-call object parses without raising: the qwen3 branch
only ever builds actions with counts coerced to at least one. -/
theorem parseQwen3ToolCall_total (fields : List (String × JValue)) :
    ∃ r, parseQwen3ToolCall fields = .ok r := by
  have h := parseQwen3ToolCall_isOk fields
  cases hr : parseQwen3ToolCall fields with
  | error e => rw [hr] at h; cases h
  | ok r => exact ⟨r, rfl⟩

/-- The tool-call loop never raises. -/
theorem qwen3ActLoop_total (cs : List String) : ∃ acts, qwen3ActLoop cs = .ok acts := by
  induction cs with
  | nil => exact ⟨[], rfl⟩
  | cons c rest ih =>
    obtain ⟨acts, hacts⟩ := ih
    simp only [qwen3ActLoop]
    cases hc : parseToolCallJson c with
    | none => exact ⟨acts, hacts⟩
    | some fields =>
      dsimp only
      obtain ⟨r, hr⟩ := parseQwen3ToolCall_total fields
      rw [hr]
      cases r with
      | none => exact ⟨acts, hacts⟩
      | some a =>
        rw [hacts]
        exact ⟨a :: acts, rfl⟩

/-- The tool-call grammar never fails as a whole. -/
theorem parseQwen3Output_total (raw : String) : ∃ step, parseQwen3Output raw = .ok step := by
  unfold parseQwen3Output
  obtain ⟨acts, hacts⟩ := qwen3ActLoop_total (findToolCalls raw)
  rw [hacts]
  exact ⟨_, rfl⟩

/-- A payload that decodes to nothing (or to a foreign/malformed tool call)
contributes nothing: the surrounding well-formed payloads still parse. -/
theorem qwen3ActLoop_skips_malformed (xs : List String) (bad : String) (ys : List String)
    (h : parseToolCallJson bad = none
      ∨ ∃ fields, parseToolCallJson bad = some fields
          ∧ parseQwen3ToolCall fields = .ok none) :
    qwen3ActLoop (xs ++ bad :: ys) = qwen3ActLoop (xs ++ ys) := by
  induction xs with
  | nil =>
    simp only [List.nil_append]
    rcases h with h | ⟨fields, h1, h2⟩
    · simp only [qwen3ActLoop, h]
    · simp only [qwen3ActLoop, h1, h2]
  | cons x xs ih =>
    simp only [List.cons_append, qwen3ActLoop]
    cases hx : parseToolCallJson x with
    | none => dsimp only; exact ih
    | some fields =>
      dsimp only
      cases hr : parseQwen3ToolCall fields with
      | error e => dsimp only
      | ok r =>
        cases r with
        | none => dsimp only; exact ih
        | some a =>
          dsimp only
          simp only [List.append_eq]
          rw [ih]

/-- An action text on which `_parse_action` yields `None` is skipped: the
remaining well-formed actions still build the Step. -/
theorem legacyLoop_skips_unparsed : ∀ (xs : List String) (acc : List Action) (stop : Bool)
    (bad : String) (ys : List String),
    parseActionTxt (pyStrip bad) = .ok none →
    legacyLoop acc stop (xs ++ bad :: ys) = legacyLoop acc stop (xs ++ ys) := by
  intro xs
  induction xs with
  | nil =>
    intro acc stop bad ys h
    simp only [List.nil_append, legacyLoop, h]
  | cons x xs ih =>
    intro acc stop bad ys h
    simp only [List.cons_append, legacyLoop]
    cases hx : parseActionTxt (pyStrip x) with
    | error e => dsimp only
    | ok r =>
      cases r with
      | none => dsimp only; exact ih acc stop bad ys h
      | some a => dsimp only; exact ih (acc ++ [a]) (stop || a.isTerminal) bad ys h

/-- C6 (amended): in the tool-call grammar every payload is parsed
independently and a malformed payload is dropped without being fatal — the
whole parse never raises; in the tagged grammar an action text that fails to
parse (`None`) is skipped without affecting its siblings.  (The remaining
tagged-grammar failure mode — a trailing repeat count parsing below 1, which
aborts the whole parse through a validation error — is the counterexample.) -/
theorem malformed_fragments_skipped :
    (∀ raw : String, ∃ step, parseQwen3Output raw = .ok step) ∧
    (∀ (xs : List String) (bad : String) (ys : List String),
      (parseToolCallJson bad = none
        ∨ ∃ fields, parseToolCallJson bad = some fields
            ∧ parseQwen3ToolCall fields = .ok none) →
      qwen3ActLoop (xs ++ bad :: ys) = qwen3ActLoop (xs ++ ys)) ∧
    (∀ (xs : List String) (acc : List Action) (stop : Bool) (bad : String)
      (ys : List String),
      parseActionTxt (pyStrip bad) = .ok none →
      legacyLoop acc stop (xs ++ bad :: ys) = legacyLoop acc stop (xs ++ ys)) :=
  ⟨parseQwen3Output_total, qwen3ActLoop_skips_malformed, legacyLoop_skips_unparsed⟩

/-- Witness for C6: a non-JSON payload sandwiched between nothing and a
well-formed terminate payload is dropped. -/
theorem malformed_fragments_skipped_witness :
    qwen3ActLoop (["\x7bnot-json\x7d"]
      ++ ["\x7b\"name\":\"computer_use\",\"arguments\":\x7b\"action\":\"terminate\"\x7d\x7d"])
      = qwen3ActLoop
        ["\x7b\"name\":\"computer_use\",\"arguments\":\x7b\"action\":\"terminate\"\x7d\x7d"] :=
  malformed_fragments_skipped.2.1 [] "\x7bnot-json\x7d"
    ["\x7b\"name\":\"computer_use\",\"arguments\":\x7b\"action\":\"terminate\"\x7d\x7d"]
    (Or.inl (by with_unfolding_all rfl))

/-- Counterexample for C6 as stated: in the tagged grammar a per-action
failure can be fatal — `hotkey(a, 0)` parses its repeat count to 0, the
pydantic validation raises, and the whole parse aborts, losing the
well-formed sibling `click(1, 2)`. -/
theorem c6_zero_count_aborts_legacy_parse :
    parse_raw_output "<|action_start|>click(1, 2) & hotkey(a, 0)<|action_end|>" "legacy"
      = .error "ValidationError: count must be greater than or equal to 1" := by
  with_unfolding_all rfl

/-- The legacy loop's stop flag accumulates exactly "a terminal action was
appended". -/
theorem legacyLoop_stop_invariant : ∀ (ts : List String) (acc : List Action) (stop : Bool)
    (acts : List Action) (st : Bool),
    legacyLoop acc stop ts = .ok (acts, st) →
    ∃ added, acts = acc ++ added ∧ st = (stop || added.any Action.isTerminal) := by
  intro ts
  induction ts with
  | nil =>
    intro acc stop acts st h
    simp only [legacyLoop] at h
    injection h with h1
    injection h1 with h2 h3
    exact ⟨[], by rw [← h2, List.append_nil], by rw [← h3]; simp⟩
  | cons t ts ih =>
    intro acc stop acts st h
    simp only [legacyLoop] at h
    cases hx : parseActionTxt (pyStrip t) with
    | error e => rw [hx] at h; cases h
    | ok r =>
      rw [hx] at h
      cases r with
      | none =>
        dsimp only at h
        exact ih acc stop acts st h
      | some a =>
        dsimp only at h
        obtain ⟨added, hacts, hst⟩ := ih (acc ++ [a]) (stop || a.isTerminal) acts st h
        refine ⟨a :: added, ?_, ?_⟩
        · rw [hacts, List.append_assoc]
          rfl
        · rw [hst, List.any_cons, Bool.or_assoc]

/-- The tagged-grammar parser satisfies the stop invariant. -/
theorem parseLegacyOutput_stop (raw : String) (step : Step)
    (h : parseLegacyOutput raw = .ok step) :
    step.stop = step.actions.any Action.isTerminal := by
  unfold parseLegacyOutput at h
  cases hb : extractTagged raw "<|action_start|>" "<|action_end|>" false with
  | none =>
    rw [hb] at h
    dsimp only at h
    injection h with h1
    rw [← h1]
    rfl
  | some blockRaw =>
    rw [hb] at h
    dsimp only at h
    cases hl : legacyLoop [] false (splitActions (pyStrip blockRaw)) with
    | error e => rw [hl] at h; cases h
    | ok p =>
      rw [hl] at h
      dsimp only at h
      obtain ⟨added, hacts, hst⟩ := legacyLoop_stop_invariant _ [] false p.1 p.2 hl
      injection h with h1
      rw [← h1]
      dsimp only
      rw [hst, hacts]
      simp

/-- The tool-call parser satisfies the stop invariant. -/
theorem parseQwen3Output_stop (raw : String) (step : Step)
    (h : parseQwen3Output raw = .ok step) :
    step.stop = step.actions.any Action.isTerminal := by
  unfold parseQwen3Output at h
  cases hl : qwen3ActLoop (findToolCalls raw) with
  | error e => rw [hl] at h; cases h
  | ok acts =>
    rw [hl] at h
    dsimp only at h
    injection h with h1
    rw [← h1]

/-- C7: whatever the raw input and parser mode, a returned Step has
`stop = true` exactly when its action list contains a terminal (`finish` or
`fail`) action. -/
theorem stop_iff_terminal :
    ∀ (raw mode : String) (step : Step),
    parse_raw_output raw mode = .ok step →
    step.stop = step.actions.any Action.isTerminal := by
  intro raw mode step h
  unfold parse_raw_output at h
  by_cases h1 : mode = "qwen3"
  · rw [if_pos h1] at h
    exact parseQwen3Output_stop raw step h
  · rw [if_neg h1] at h
    by_cases h2 : mode = "legacy"
    · rw [if_pos h2] at h
      exact parseLegacyOutput_stop raw step h
    · rw [if_neg h2] at h
      by_cases h3 : mode = "auto"
      · rw [if_pos h3] at h
        have hfall : ∀ s, parse_raw_output.autoFallback raw = .ok s →
            s.stop = s.actions.any Action.isTerminal := by
          intro s hs
          unfold parse_raw_output.autoFallback at hs
          by_cases h4 : (containsSub raw "<|action_start|>"
              || containsSub raw "<|think_start|>") = true
          · rw [if_pos h4] at hs
            exact parseLegacyOutput_stop raw s hs
          · rw [if_neg h4] at hs
            cases hq : parseQwen3Output raw with
            | error e => rw [hq] at hs; cases hs
            | ok q =>
              rw [hq] at hs
              dsimp only at hs
              by_cases h5 : (decide ¬q.actions = [] || decide ¬q.reason = "") = true
              · rw [if_pos h5] at hs
                injection hs with h6
                rw [← h6]
                exact parseQwen3Output_stop raw q hq
              · rw [if_neg h5] at hs
                exact parseLegacyOutput_stop raw s hs
        by_cases h4 : containsSub raw "<tool_call>" = true
        · rw [if_pos h4] at h
          cases hq : parseQwen3Output raw with
          | error e => rw [hq] at h; cases h
          | ok q =>
            rw [hq] at h
            dsimp only at h
            by_cases h5 : (decide ¬q.actions = [] || decide ¬q.reason = "") = true
            · rw [if_pos h5] at h
              injection h with h6
              rw [← h6]
              exact parseQwen3Output_stop raw q hq
            · rw [if_neg h5] at h
              exact hfall step h
        · rw [if_neg h4] at h
          exact hfall step h
      · rw [if_neg h3] at h
        cases h

/-- Witness for C7: a tagged-grammar batch ending in `finish()` parses with
`stop = true`, matching its terminal action. -/
theorem stop_iff_terminal_witness :
    (Step.mk "" [Action.mk ActionType.FINISH "" (some 1)] true).stop
      = (Step.mk "" [Action.mk ActionType.FINISH "" (some 1)] true).actions.any
          Action.isTerminal :=
  stop_iff_terminal "<|action_start|>finish()<|action_end|>" "legacy"
    (Step.mk "" [Action.mk ActionType.FINISH "" (some 1)] true)
    (by with_unfolding_all rfl)

/-- C8 (amended): the pyautogui converter's `_normalize_key` case-folds,
strips, and maps all three alias sets — OS `super`/`windows`/`meta`
variants, page-up/page-down spacing variants, caps-lock spelling variants —
each to a single canonical name inside the closed vocabulary; the shared
`normalize_key` does the same only for the page and caps sets (canonical
`pgup`/`pgdn`/`capslock`) and leaves the OS variants unchanged. -/
theorem normalize_alias_sets :
    (pyconvNormalizeKey "windows" = "win" ∧ pyconvNormalizeKey "super" = "win"
      ∧ pyconvNormalizeKey "meta" = "win"
      ∧ PYAUTOGUI_VALID_KEYS.contains "win" = true) ∧
    (pyconvNormalizeKey "page_up" = "pageup" ∧ pyconvNormalizeKey "pageup" = "pageup"
      ∧ pyconvNormalizeKey "pgup" = "pageup"
      ∧ pyconvNormalizeKey "page_down" = "pagedown"
      ∧ pyconvNormalizeKey "pagedown" = "pagedown"
      ∧ pyconvNormalizeKey "pgdn" = "pagedown"
      ∧ PYAUTOGUI_VALID_KEYS.contains "pageup" = true
      ∧ PYAUTOGUI_VALID_KEYS.contains "pagedown" = true) ∧
    (pyconvNormalizeKey "caps_lock" = "capslock" ∧ pyconvNormalizeKey "caps" = "capslock"
      ∧ pyconvNormalizeKey "capslock" = "capslock"
      ∧ PYAUTOGUI_VALID_KEYS.contains "capslock" = true) ∧
    (pyconvNormalizeKey "  SUPER " = "win" ∧ pyconvNormalizeKey " Caps_Lock " = "capslock") ∧
    (normalize_key "caps_lock" false false = "capslock"
      ∧ normalize_key "caps" false false = "capslock"
      ∧ normalize_key "page_up" false false = "pgup"
      ∧ normalize_key "pageup" false false = "pgup"
      ∧ normalize_key "page_down" false false = "pgdn"
      ∧ normalize_key "pagedown" false false = "pgdn"
      ∧ normalize_key " Page_Up " false false = "pgup"
      ∧ PYAUTOGUI_VALID_KEYS.contains "pgup" = true
      ∧ PYAUTOGUI_VALID_KEYS.contains "pgdn" = true) := by
  decide

/-- Counterexample for C8 as stated: the shared `normalize_key` does not map
the OS alias set at all — `super` and `windows` stay distinct and `super` is
not even a member of the closed vocabulary. -/
theorem c8_normalize_key_super_unmapped :
    normalize_key "super" false false = "super"
    ∧ normalize_key "windows" false false = "windows"
    ∧ normalize_key "super" false false ≠ normalize_key "windows" false false
    ∧ PYAUTOGUI_VALID_KEYS.contains (normalize_key "super" false false) = false := by
  refine ⟨by with_unfolding_all rfl, by with_unfolding_all rfl, ?_, by with_unfolding_all rfl⟩
  intro h
  rw [show normalize_key "super" false false = "super" from by with_unfolding_all rfl,
    show normalize_key "windows" false false = "windows" from by with_unfolding_all rfl] at h
  exact absurd h (by decide)

/-- C9: the capslock state machine — in `session` mode `toggle()` flips the
flag and `transform_text` upper-cases exactly while enabled; in `system`
mode `toggle()` is a no-op and `transform_text` is the identity; and a
single-key capslock hotkey makes both converters emit the OS-level capslock
command only in `system` mode, while in `session` mode they emit no command
and only flip the virtual state. -/
theorem capslock_state_machine :
    (∀ b : Bool, ({ mode := "session", caps_enabled := b } : CapsLockManager).toggle
      = { mode := "session", caps_enabled := !b }) ∧
    (∀ t : String, ({ mode := "session", caps_enabled := true } : CapsLockManager).transform_text t
      = pyUpper t) ∧
    (∀ t : String, ({ mode := "session", caps_enabled := false } : CapsLockManager).transform_text t
      = t) ∧
    (∀ b : Bool, ({ mode := "system", caps_enabled := b } : CapsLockManager).toggle
      = { mode := "system", caps_enabled := b }) ∧
    (∀ (b : Bool) (t : String),
      ({ mode := "system", caps_enabled := b } : CapsLockManager).transform_text t = t) ∧
    (∀ (cfg : ConverterConfig) (b : Bool) (c : Option Int),
      oagiConvertSingle cfg { mode := "system", caps_enabled := b }
        { type := ActionType.HOTKEY, argument := "capslock", count := c }
      = .ok (["pyautogui.hotkey(\x27capslock\x27, interval="
          ++ pyFloatStr cfg.hotkey_interval ++ ")"],
        { mode := "system", caps_enabled := b })) ∧
    (∀ (cfg : ConverterConfig) (b : Bool) (c : Option Int),
      oagiConvertSingle cfg { mode := "session", caps_enabled := b }
        { type := ActionType.HOTKEY, argument := "capslock", count := c }
      = .ok ([], { mode := "session", caps_enabled := !b })) ∧
    (∀ (cfg : PyautoguiConfig) (b : Bool) (c : Option Int),
      pyconvConvertSingle cfg { mode := "system", caps_enabled := b }
        { type := ActionType.HOTKEY, argument := "capslock", count := c }
      = .ok (["pyautogui.hotkey(\x27capslock\x27, interval="
          ++ pyFloatStr cfg.hotkey_interval ++ ")"],
        { mode := "system", caps_enabled := b })) ∧
    (∀ (cfg : PyautoguiConfig) (b : Bool) (c : Option Int),
      pyconvConvertSingle cfg { mode := "session", caps_enabled := b }
        { type := ActionType.HOTKEY, argument := "capslock", count := c }
      = .ok ([], { mode := "session", caps_enabled := !b })) := by
  refine ⟨fun b => rfl, fun t => rfl, fun t => rfl, fun b => rfl, fun b t => rfl,
    fun cfg b c => by with_unfolding_all rfl,
    fun cfg b c => by with_unfolding_all rfl,
    fun cfg b c => by with_unfolding_all rfl,
    fun cfg b c => by with_unfolding_all rfl⟩

/-- C10: a Qwen3 `terminate` action converts to the single command `DONE`
regardless of its `status` field — in particular a failure status never
produces a `FAIL` command. -/
theorem qwen3_terminate_is_done :
    ∀ (cfg : ConverterConfig) (st : Qwen3State) (a : Qwen3Action),
    pyLower a.action_type = "terminate" →
    qwen3ConvertSingle cfg st a = .ok (["DONE"], st) := by
  intro cfg st a h
  simp [qwen3ConvertSingle, h]

/-- Witness for C10: a `terminate` with `status = "failure"` still yields
`DONE`. -/
theorem qwen3_terminate_is_done_witness :
    qwen3ConvertSingle defaultConverterConfig { last_x := 960, last_y := 540 }
      { action_type := "terminate", coordinate := none, text := none, keys := none,
        pixels := none, time := none, status := some "failure" }
      = .ok (["DONE"], { last_x := 960, last_y := 540 }) :=
  qwen3_terminate_is_done defaultConverterConfig { last_x := 960, last_y := 540 }
    { action_type := "terminate", coordinate := none, text := none, keys := none,
      pixels := none, time := none, status := some "failure" }
    (by with_unfolding_all rfl)

/-- Counterexample for C1 as stated: in `OagiActionConverter` a batch holding
the two terminal actions `finish` and `fail` does not raise any duplicate
error — it returns a command (`fail` merely lands in the failure list as an
unknown action type). -/
theorem c1_oagi_finish_fail_no_duplicate_error :
    oagiCall defaultConverterConfig (CapsLockManager.make "session")
      [{ type := ActionType.FINISH, argument := "", count := some 1 },
       { type := ActionType.FAIL, argument := "", count := some 1 }]
      = .ok [("DONE", true)] := by
  with_unfolding_all rfl

end Oagi
